import Mathlib

/-!
# STM32 embedded HTTP server: SPI bus engine and ENC28J60 supervisor

A shallow embedding of `src/drivers/spi.c` and `src/drivers/enc28j60.c`.

* C globals and the memory-mapped registers the drivers touch are the fields of a
  state record; every C function is a Lean function from state to (result, state).
* `uint8_t`, `uint16_t` and `uint32_t` values are natural numbers; where the C
  arithmetic can wrap, the reduction modulo `2^w` is written out.
* A `uint8_t const *` is `Option (List Byte)`: `none` is `NULL`, `some m` is a pointer
  to the caller's bytes `m`.  Reading past the end of `m` is undefined behaviour in C;
  functions that read through a pointer return `Option`, and `none` stands for such
  a read.
* The value of the status register `SPI1_SR` is decided by the hardware, so the
  interrupt handler takes the value it reads as an argument.
* Every store to the data register `SPI1_DR` is appended to a log, which is the
  sequence of bytes the wire sees.
-/

namespace Stm32

/-! ## Machine words -/

/-- An octet, the C type `uint8_t`. -/
abbrev Byte := Fin 256

/-- A `uint8_t const *`: `none` is `NULL`, `some m` points at the bytes `m`. -/
abbrev BytePtr := Option (List Byte)

/-- Bitwise complement of a `uint32_t`. -/
def not32 (x : Nat) : Nat := 0xFFFFFFFF ^^^ (x % 2 ^ 32)

/-! ## spi.h -/

def SPI_CR1_MSTR_BIT : Nat := 2
def SPI_CR1_BR_BIT : Nat := 3
def SPI_CR1_SPE_BIT : Nat := 6
def SPI_CR1_SSI_BIT : Nat := 8
def SPI_CR1_SSM_BIT : Nat := 9

def SPI_CR2_TXEIE_BIT : Nat := 7
def SPI_CR2_DS_BIT : Nat := 8
def SPI_CR2_FRXTH_BIT : Nat := 12

def SPI_SR_RXNE_BIT : Nat := 0
def SPI_SR_TXE_BIT : Nat := 1

/-- The enumeration `spi_state_t`. -/
inductive spi_state_t where
  | SPI_STATE_IDLE
  | SPI_STATE_TX_BUSY
  | SPI_STATE_RX_BUSY
  | SPI_STATE_ERROR
  deriving DecidableEq

open spi_state_t

/-! ## spi.c -/

/-- The registers of SPI1 that the driver writes and the driver's globals.
`SPI1_DR_log` lists every value stored to `SPI1_DR`, oldest first. -/
structure SpiState where
  SPI1_CR1 : Nat
  SPI1_CR2 : Nat
  SPI1_DR_log : List Nat
  g_p_spi_tx_buffer : BytePtr
  g_spi_tx_length : Nat
  g_spi_tx_index : Nat
  g_spi_state : spi_state_t
  g_spi_initialized : Bool
  deriving DecidableEq

/-- The globals as their C initialisers leave them, over given register contents. -/
def spi_boot (cr1 cr2 : Nat) : SpiState :=
  { SPI1_CR1 := cr1
    SPI1_CR2 := cr2
    SPI1_DR_log := []
    g_p_spi_tx_buffer := none
    g_spi_tx_length := 0
    g_spi_tx_index := 0
    g_spi_state := SPI_STATE_IDLE
    g_spi_initialized := false }

/-- The function `spi_init`, statement by statement. -/
def spi_init (prescaler : Nat) (s : SpiState) : Int × SpiState :=
  let s := { s with SPI1_CR1 := s.SPI1_CR1 &&& not32 (1 <<< SPI_CR1_SPE_BIT) }
  let s := { s with SPI1_CR1 := 0 }
  let s := { s with SPI1_CR1 := s.SPI1_CR1 ||| (1 <<< SPI_CR1_MSTR_BIT) }
  let s := { s with SPI1_CR1 := s.SPI1_CR1 ||| ((prescaler <<< SPI_CR1_BR_BIT) % 2 ^ 32) }
  let s := { s with SPI1_CR1 := s.SPI1_CR1 ||| (1 <<< SPI_CR1_SSM_BIT) }
  let s := { s with SPI1_CR1 := s.SPI1_CR1 ||| (1 <<< SPI_CR1_SSI_BIT) }
  let s := { s with SPI1_CR2 := 0 }
  let s := { s with SPI1_CR2 := s.SPI1_CR2 ||| (0x7 <<< SPI_CR2_DS_BIT) }
  let s := { s with SPI1_CR2 := s.SPI1_CR2 ||| (1 <<< SPI_CR2_FRXTH_BIT) }
  let s := { s with SPI1_CR1 := s.SPI1_CR1 ||| (1 <<< SPI_CR1_SPE_BIT) }
  let s := { s with g_spi_initialized := true }
  let s := { s with g_spi_state := SPI_STATE_IDLE }
  (0, s)

/-- The function `spi_transmit_buffer` run without interruption: the two argument
checks, the check of `g_spi_state` inside the critical section, then the set-up of the
transaction and the enabling of the TXE interrupt. -/
def spi_transmit_buffer (p_tx : BytePtr) (len : Nat) (s : SpiState) : Int × SpiState :=
  if p_tx = none then (-1, s)
  else if len = 0 then (-1, s)
  else if s.g_spi_state ≠ SPI_STATE_IDLE then (-2, s)
  else
    let s := { s with g_spi_state := SPI_STATE_TX_BUSY }
    let s := { s with g_p_spi_tx_buffer := p_tx }
    let s := { s with g_spi_tx_length := len }
    let s := { s with g_spi_tx_index := 0 }
    let s := { s with SPI1_CR2 := s.SPI1_CR2 ||| (1 <<< SPI_CR2_TXEIE_BIT) }
    (0, s)

/-- The function `spi_is_busy`. -/
def spi_is_busy (s : SpiState) : Bool :=
  if s.g_spi_state ≠ SPI_STATE_IDLE then true else false

/-- The `else` branch of `spi_process_tx`: transmission complete. -/
def spi_tx_complete (s : SpiState) : SpiState :=
  let s := { s with SPI1_CR2 := s.SPI1_CR2 &&& not32 (1 <<< SPI_CR2_TXEIE_BIT) }
  let s := { s with g_p_spi_tx_buffer := none }
  { s with g_spi_state := SPI_STATE_IDLE }

/-- The function `spi_process_tx`.  The result is `none` when the byte
`g_p_spi_tx_buffer[g_spi_tx_index]` lies outside the caller's buffer. -/
def spi_process_tx (s : SpiState) : Option SpiState :=
  match s.g_p_spi_tx_buffer with
  | none => some (spi_tx_complete s)
  | some m =>
    if s.g_spi_tx_index < s.g_spi_tx_length then
      match m[s.g_spi_tx_index]? with
      | none => none
      | some b =>
        let s := { s with SPI1_DR_log := s.SPI1_DR_log ++ [b.val] }
        some { s with g_spi_tx_index := (s.g_spi_tx_index + 1) % 2 ^ 16 }
    else some (spi_tx_complete s)

/-- The function `SPI1_IRQHandler`; `sr` is the value read from `SPI1_SR`. -/
def SPI1_IRQHandler (sr : Nat) (s : SpiState) : Option SpiState :=
  if (sr &&& (1 <<< SPI_SR_TXE_BIT)) ≠ 0 ∧ (s.SPI1_CR2 &&& (1 <<< SPI_CR2_TXEIE_BIT)) ≠ 0 then
    spi_process_tx s
  else some s

/-- Runs `spi_process_tx` `k` times in a row. -/
def spi_process_tx_iter : Nat → SpiState → Option SpiState
  | 0, s => some s
  | k + 1, s => (spi_process_tx s).bind (spi_process_tx_iter k)

/-- Runs `SPI1_IRQHandler` once for each value of `SPI1_SR` in the list, in order. -/
def SPI1_IRQHandler_iter : List Nat → SpiState → Option SpiState
  | [], s => some s
  | sr :: rest, s => (SPI1_IRQHandler sr s).bind (SPI1_IRQHandler_iter rest)

/-- The TXE flag is set in a value read from `SPI1_SR`. -/
def txe_set (sr : Nat) : Prop := (sr &&& (1 <<< SPI_SR_TXE_BIT)) ≠ 0

instance (sr : Nat) : Decidable (txe_set sr) := by unfold txe_set; infer_instance

/-- The TXEIE bit is set in a value of `SPI1_CR2`. -/
def txeie_set (cr2 : Nat) : Prop := (cr2 &&& (1 <<< SPI_CR2_TXEIE_BIT)) ≠ 0

instance (cr2 : Nat) : Decidable (txeie_set cr2) := by unfold txeie_set; infer_instance

/-- The ways the driver state is changed after `spi_init`: a call of
`spi_transmit_buffer` with any arguments, a run of `SPI1_IRQHandler` with any value
read from `SPI1_SR`, or a bare `spi_process_tx` step. -/
inductive SpiEvent where
  | transmit (p_tx : BytePtr) (len : Nat)
  | irq (sr : Nat)
  | process_tx
  deriving DecidableEq

/-- The state after one event; `none` when the event reads outside a buffer. -/
def spi_step (e : SpiEvent) (s : SpiState) : Option SpiState :=
  match e with
  | .transmit p_tx len => some (spi_transmit_buffer p_tx len s).2
  | .irq sr => SPI1_IRQHandler sr s
  | .process_tx => spi_process_tx s

/-- The state after a list of events, first event first. -/
def spi_run : List SpiEvent → SpiState → Option SpiState
  | [], s => some s
  | e :: rest, s => (spi_step e s).bind (spi_run rest)

/-! ## spi.c: `spi_transmit_buffer` statement by statement, with interrupts

The function masks interrupts around its check of `g_spi_state`.  To speak about a
second request arriving in the middle of a first one, the body is cut into its
statements, the core's PRIMASK bit is made part of the state, and an interrupt handler
may run between two statements exactly when PRIMASK is clear. -/

/-- The PRIMASK bit of the core (`true`: interrupts masked) and the SPI driver state. -/
structure Cpu where
  primask : Bool
  spi : SpiState
  deriving DecidableEq

/-- The inline function `__disable_irq`, the instruction `cpsid i`. -/
def __disable_irq (c : Cpu) : Cpu := { c with primask := true }

/-- The inline function `__enable_irq`, the instruction `cpsie i`. -/
def __enable_irq (c : Cpu) : Cpu := { c with primask := false }

/-- The statement of `spi_transmit_buffer` that runs next (line of `spi.c`), or the
value the call has returned. -/
inductive TxPc where
  | at_check_ptr
  | at_check_len
  | at_disable_irq
  | at_check_state
  | at_busy_enable_irq
  | at_set_state
  | at_enable_irq
  | at_set_buffer
  | at_set_length
  | at_set_index
  | at_set_txeie
  | returned (code : Int)
  deriving DecidableEq

/-- One statement of `spi_transmit_buffer(p_tx, len)`:
line 97 `if (NULL == p_tx) return -1`, line 101 `if (0u == len) return -1`,
line 106 `__disable_irq()`, line 108 `if (SPI_STATE_IDLE != g_spi_state)`,
line 109 `__enable_irq(); return -2`, line 113 `g_spi_state = SPI_STATE_TX_BUSY`,
line 114 `__enable_irq()`, lines 117 to 119 the three stores of the transaction,
line 122 `*SPI1_CR2 |= (1u << SPI_CR2_TXEIE_BIT)` and `return 0`. -/
def spi_transmit_buffer_stmt (p_tx : BytePtr) (len : Nat) (pc : TxPc) (c : Cpu) : TxPc × Cpu :=
  match pc with
  | .at_check_ptr => if p_tx = none then (.returned (-1), c) else (.at_check_len, c)
  | .at_check_len => if len = 0 then (.returned (-1), c) else (.at_disable_irq, c)
  | .at_disable_irq => (.at_check_state, __disable_irq c)
  | .at_check_state =>
    if c.spi.g_spi_state ≠ SPI_STATE_IDLE then (.at_busy_enable_irq, c) else (.at_set_state, c)
  | .at_busy_enable_irq => (.returned (-2), __enable_irq c)
  | .at_set_state => (.at_enable_irq, { c with spi := { c.spi with g_spi_state := SPI_STATE_TX_BUSY } })
  | .at_enable_irq => (.at_set_buffer, __enable_irq c)
  | .at_set_buffer => (.at_set_length, { c with spi := { c.spi with g_p_spi_tx_buffer := p_tx } })
  | .at_set_length => (.at_set_index, { c with spi := { c.spi with g_spi_tx_length := len } })
  | .at_set_index => (.at_set_txeie, { c with spi := { c.spi with g_spi_tx_index := 0 } })
  | .at_set_txeie =>
    (.returned 0,
      { c with spi := { c.spi with SPI1_CR2 := c.spi.SPI1_CR2 ||| (1 <<< SPI_CR2_TXEIE_BIT) } })
  | .returned code => (.returned code, c)

/-- Runs `n` statements of the call without interruption. -/
def spi_transmit_buffer_stmts (p_tx : BytePtr) (len : Nat) : Nat → TxPc × Cpu → TxPc × Cpu
  | 0, k => k
  | n + 1, k => spi_transmit_buffer_stmts p_tx len n (spi_transmit_buffer_stmt p_tx len k.1 k.2)

/-- A foreground call `spi_transmit_buffer(p_tx, len)` in progress, the machine state,
and the codes returned so far by the calls made from interrupt handlers, latest
first. -/
structure Conc where
  pc : TxPc
  cpu : Cpu
  isr_codes : List Int
  deriving DecidableEq

/-- What happens next: the foreground call runs its next statement, or an interrupt
handler runs a whole call `spi_transmit_buffer(p_tx, len)`. -/
inductive Sched where
  | fg
  | isr (p_tx : BytePtr) (len : Nat)
  deriving DecidableEq

/-- One scheduling step.  The foreground step is `none` once the call has returned;
the interrupt step is `none` while PRIMASK is set, because the handler cannot be
entered then.  A handler runs to completion and leaves PRIMASK clear. -/
def conc_step (p_tx : BytePtr) (len : Nat) (e : Sched) (k : Conc) : Option Conc :=
  match e with
  | .fg =>
    match k.pc with
    | .returned _ => none
    | pc =>
      some { k with pc := (spi_transmit_buffer_stmt p_tx len pc k.cpu).1
                    cpu := (spi_transmit_buffer_stmt p_tx len pc k.cpu).2 }
  | .isr q n =>
    if k.cpu.primask = true then none
    else
      some { k with cpu := { primask := false, spi := (spi_transmit_buffer q n k.cpu.spi).2 }
                    isr_codes := (spi_transmit_buffer q n k.cpu.spi).1 :: k.isr_codes }

/-- A whole schedule, first step first. -/
def conc_run (p_tx : BytePtr) (len : Nat) : List Sched → Conc → Option Conc
  | [], k => some k
  | e :: rest, k => (conc_step p_tx len e k).bind (conc_run p_tx len rest)

/-- The foreground call about to start. -/
def conc_start (c : Cpu) : Conc := { pc := .at_check_ptr, cpu := c, isr_codes := [] }

/-- The number of requests accepted so far: the foreground call if it has returned 0,
and every interrupt-context call that returned 0. -/
def accepted (k : Conc) : Nat :=
  (if k.pc = TxPc.returned 0 then 1 else 0) + k.isr_codes.count 0

/-! ## enc28j60.h, enc28j60.c -/

/-- The enumeration `enc28j60_state_t`. -/
inductive enc28j60_state_t where
  | ENC28J60_STATE_UNINITIALIZED
  | ENC28J60_STATE_READY
  | ENC28J60_STATE_TX_BUSY
  | ENC28J60_STATE_ERROR
  deriving DecidableEq

open enc28j60_state_t

/-- The globals of the ENC28J60 driver; `g_mac_address` is the array `uint8_t [6]`. -/
structure EncState where
  g_enc28j60_state : enc28j60_state_t
  g_mac_address : Fin 6 → Byte
  deriving DecidableEq

/-- The globals as their C initialisers leave them. -/
def enc_boot : EncState :=
  { g_enc28j60_state := ENC28J60_STATE_UNINITIALIZED
    g_mac_address := fun _ => 0 }

/-- The body of the `for` loop of `enc28j60_init` at index `i`:
`g_mac_address[i] = p_mac_addr[i]`, `none` when `p_mac_addr[i]` is outside the
caller's bytes. -/
def enc28j60_init_copy (m : List Byte) (mac : Fin 6 → Byte) (i : Fin 6) :
    Option (Fin 6 → Byte) :=
  match m[i.val]? with
  | none => none
  | some b => some (Function.update mac i b)

/-- The function `enc28j60_init`: the null check, the loop over `i = 0, ..., 5`, the
assignment of `ENC28J60_STATE_READY`, and `return 0`. -/
def enc28j60_init (p_mac_addr : BytePtr) (s : EncState) : Option (Int × EncState) :=
  match p_mac_addr with
  | none => some (-1, s)
  | some m =>
    match (List.finRange 6).foldlM (enc28j60_init_copy m) s.g_mac_address with
    | none => none
    | some mac =>
      let s := { s with g_mac_address := mac }
      let s := { s with g_enc28j60_state := ENC28J60_STATE_READY }
      some (0, s)

/-- The function `enc28j60_read_register`: the parameter is unused and the value
returned is `0x00`. -/
def enc28j60_read_register (reg : Nat) (s : EncState) : Nat × EncState :=
  let _ := reg
  (0x00, s)

/-- The function `enc28j60_write_register`: both parameters are unused and nothing is
stored. -/
def enc28j60_write_register (reg : Nat) (value : Nat) (s : EncState) : EncState :=
  let _ := reg
  let _ := value
  s

/-- The function `enc28j60_send_packet`: the null check, the length check, and
`return 0`. -/
def enc28j60_send_packet (p_data : BytePtr) (len : Nat) (s : EncState) : Int × EncState :=
  if p_data = none then (-1, s)
  else if len = 0 then (-1, s)
  else (0, s)

/-- An access to a control register: a call of `enc28j60_read_register` or of
`enc28j60_write_register`. -/
inductive EncRegAccess where
  | read (reg : Nat)
  | write (reg : Nat) (value : Nat)
  deriving DecidableEq

/-- The driver state after one register access. -/
def enc_reg_access (a : EncRegAccess) (s : EncState) : EncState :=
  match a with
  | .read reg => (enc28j60_read_register reg s).2
  | .write reg value => enc28j60_write_register reg value s

/-- The driver state after a list of register accesses, first access first. -/
def enc_reg_accesses : List EncRegAccess → EncState → EncState
  | [], s => s
  | a :: rest, s => enc_reg_accesses rest (enc_reg_access a s)

/-! ## rcc.h, rcc.c -/

def RCC_CR_HSION_BIT : Nat := 8
def RCC_CR_HSIRDY_BIT : Nat := 10
def RCC_IOPENR_GPIOAEN_BIT : Nat := 0
def RCC_IOPENR_GPIOBEN_BIT : Nat := 1
def RCC_IOPENR_GPIOCEN_BIT : Nat := 2
def RCC_APBENR2_SPI1EN_BIT : Nat := 12

/-- The loop bound `RCC_TIMEOUT_COUNT`. -/
def RCC_TIMEOUT_COUNT : Nat := 100000

/-- The registers the RCC driver writes and the driver's globals. -/
structure RccState where
  RCC_CR : Nat
  RCC_IOPENR : Nat
  RCC_APBENR2 : Nat
  g_rcc_initialized : Bool
  g_system_clock_hz : Nat
  deriving DecidableEq

/-- The globals as their C initialisers leave them, over given register contents. -/
def rcc_boot (cr iopenr apbenr2 : Nat) : RccState :=
  { RCC_CR := cr
    RCC_IOPENR := iopenr
    RCC_APBENR2 := apbenr2
    g_rcc_initialized := false
    g_system_clock_hz := 16000000 }

/-- The HSIRDY flag is clear in a value read from `RCC_CR`. -/
def hsirdy_clear (cr : Nat) : Prop := (cr &&& (1 <<< RCC_CR_HSIRDY_BIT)) = 0

instance (cr : Nat) : Decidable (hsirdy_clear cr) := by unfold hsirdy_clear; infer_instance

/-- The `while` loop of `rcc_init`.  `cr_reads k` is the value the `k`-th read of
`RCC_CR` by the loop condition returns, `polls` counts the reads made so far, and the
result is the final value of `timeout`.  The condition reads `RCC_CR` first and
compares `timeout` with `RCC_TIMEOUT_COUNT` second. -/
def rcc_wait_hsirdy (cr_reads : Nat → Nat) (polls : Nat) (timeout : Nat) : Nat :=
  if hsirdy_clear (cr_reads polls) ∧ timeout < RCC_TIMEOUT_COUNT then
    rcc_wait_hsirdy cr_reads (polls + 1) ((timeout + 1) % 2 ^ 32)
  else timeout
termination_by RCC_TIMEOUT_COUNT - timeout
decreasing_by
  simp_wf
  rename_i h
  have ht := h.2
  unfold RCC_TIMEOUT_COUNT at ht ⊢
  omega

/-- The function `rcc_init`; `cr_reads` gives the values the wait loop reads from
`RCC_CR`. -/
def rcc_init (cr_reads : Nat → Nat) (s : RccState) : Int × RccState :=
  if s.g_rcc_initialized = true then (0, s)
  else
    let s := { s with RCC_CR := s.RCC_CR ||| (1 <<< RCC_CR_HSION_BIT) }
    let timeout := rcc_wait_hsirdy cr_reads 0 0
    if timeout ≥ RCC_TIMEOUT_COUNT then (-1, s)
    else
      let s := { s with RCC_IOPENR := s.RCC_IOPENR ||| (1 <<< RCC_IOPENR_GPIOAEN_BIT) }
      let s := { s with RCC_IOPENR := s.RCC_IOPENR ||| (1 <<< RCC_IOPENR_GPIOBEN_BIT) }
      let s := { s with RCC_IOPENR := s.RCC_IOPENR ||| (1 <<< RCC_IOPENR_GPIOCEN_BIT) }
      let s := { s with RCC_APBENR2 := s.RCC_APBENR2 ||| (1 <<< RCC_APBENR2_SPI1EN_BIT) }
      let s := { s with g_system_clock_hz := 16000000 }
      let s := { s with g_rcc_initialized := true }
      (0, s)

/-- The function `rcc_get_system_clock`. -/
def rcc_get_system_clock (s : RccState) : Nat := s.g_system_clock_hz

/-! ## Core/Src/main.c: the panic printer -/

/-- The C character with code 0, the string terminator. -/
def NUL : Char := Char.ofNat 0

/-- The local array `char hex[] = "0123456789ABCDEF"`, terminator included. -/
def hex : List Char :=
  ['0', '1', '2', '3', '4', '5', '6', '7', '8', '9', 'A', 'B', 'C', 'D', 'E', 'F', NUL]

/-- The expression `hex[(val >> (i * 4)) & 0xF]`; the index is at most 15, inside the
array. -/
def hex_nibble (val i : Nat) : Char :=
  hex.get ⟨(val >>> (i * 4)) &&& 0xF, Nat.lt_of_le_of_lt Nat.and_le_right (by decide)⟩

/-- The body of the `for` loop of `UART_Panic_Print_Hex` at index `i`:
`buf[9 - i] = hex[(val >> (i * 4)) & 0xF]`. -/
def UART_Panic_Print_Hex_body (val : Nat) (buf : Fin 11 → Char) (i : Fin 8) : Fin 11 → Char :=
  Function.update buf ⟨9 - i.val, by omega⟩ (hex_nibble val i.val)

/-- The array `buf` as `UART_Panic_Print_Hex(val)` has filled it when it calls
`UART_Panic_Print`; `buf0` is the content of the uninitialised local array. -/
def UART_Panic_Print_Hex_buf (val : Nat) (buf0 : Fin 11 → Char) : Fin 11 → Char :=
  let buf := Function.update buf0 0 '0'
  let buf := Function.update buf 1 'x'
  let buf := (List.finRange 8).foldl (UART_Panic_Print_Hex_body val) buf
  Function.update buf 10 NUL

/-- The function `UART_Panic_Print` on the characters found from `str` on: the
characters it stores to `TDR`, in order, up to the terminator; `none` when it runs past
the end of the array without meeting one.  The two waits on `uart->ISR` are taken to
end. -/
def UART_Panic_Print : List Char → Option (List Char)
  | [] => none
  | c :: rest => if c = NUL then some [] else (UART_Panic_Print rest).map (fun out => c :: out)

/-- The function `UART_Panic_Print_Hex`: the characters it sends. -/
def UART_Panic_Print_Hex (val : Nat) (buf0 : Fin 11 → Char) : Option (List Char) :=
  UART_Panic_Print (List.ofFn (UART_Panic_Print_Hex_buf val buf0))

/-- The value of one hexadecimal digit character, `0` to `9` and `A` to `F`, as the
claim on the formatting reads the digits back; other characters count 0. -/
def hex_digit_value (c : Char) : Nat :=
  if 48 ≤ c.toNat ∧ c.toNat ≤ 57 then c.toNat - 48
  else if 65 ≤ c.toNat ∧ c.toNat ≤ 70 then c.toNat - 55
  else 0

/-- Reads a list of hexadecimal digit characters, most significant first, as a base-16
number. -/
def read_hex (cs : List Char) : Nat :=
  cs.foldl (fun acc c => acc * 16 + hex_digit_value c) 0

/-! ## States and predicates used in the statements -/

/-- The state an accepted request leaves behind, written as one record update. -/
def tx_started (m : List Byte) (len : Nat) (s : SpiState) : SpiState :=
  { s with g_spi_state := SPI_STATE_TX_BUSY
           g_p_spi_tx_buffer := some m
           g_spi_tx_length := len
           g_spi_tx_index := 0
           SPI1_CR2 := s.SPI1_CR2 ||| (1 <<< SPI_CR2_TXEIE_BIT) }

/-- The state after an accepted request of `B.length` bytes and `B.length` sending
steps: everything sent, cursor at the length, still busy. -/
def tx_all_sent (B : List Byte) (s : SpiState) : SpiState :=
  { tx_started B B.length s with
      SPI1_DR_log := s.SPI1_DR_log ++ B.map Fin.val
      g_spi_tx_index := B.length }

/-- The driver is idle or transmitting. -/
def idle_or_tx_busy (s : SpiState) : Prop :=
  s.g_spi_state = SPI_STATE_IDLE ∨ s.g_spi_state = SPI_STATE_TX_BUSY

instance (s : SpiState) : Decidable (idle_or_tx_busy s) := by
  unfold idle_or_tx_busy; infer_instance

/-- The facts that hold at each statement of the foreground call under every schedule:
interrupts are masked from line 108 to line 114; at line 113 the driver is idle and no
interrupt-context request has been accepted; from line 114 on the driver is busy and
no interrupt-context request has been accepted; anywhere else at most one
interrupt-context request has been accepted, and then the driver is not idle. -/
def conc_inv (k : Conc) : Prop :=
  match k.pc with
  | .at_check_state | .at_busy_enable_irq =>
    k.cpu.primask = true ∧ k.isr_codes.count 0 ≤ 1 ∧
      (k.isr_codes.count 0 = 1 → k.cpu.spi.g_spi_state ≠ SPI_STATE_IDLE)
  | .at_set_state =>
    k.cpu.primask = true ∧ k.cpu.spi.g_spi_state = SPI_STATE_IDLE ∧ k.isr_codes.count 0 = 0
  | .at_enable_irq =>
    k.cpu.primask = true ∧ k.cpu.spi.g_spi_state ≠ SPI_STATE_IDLE ∧ k.isr_codes.count 0 = 0
  | .at_set_buffer | .at_set_length | .at_set_index | .at_set_txeie | .returned 0 =>
    k.cpu.spi.g_spi_state ≠ SPI_STATE_IDLE ∧ k.isr_codes.count 0 = 0
  | _ =>
    k.isr_codes.count 0 ≤ 1 ∧
      (k.isr_codes.count 0 = 1 → k.cpu.spi.g_spi_state ≠ SPI_STATE_IDLE)

/-- The state after an accepted request `(m, n)` and `k` sending steps: the first `k`
bytes of `m` sent, the cursor at `k`, still busy. -/
def tx_sent (m : List Byte) (n k : Nat) (s : SpiState) : SpiState :=
  { tx_started m n s with
      SPI1_DR_log := s.SPI1_DR_log ++ (m.take k).map Fin.val
      g_spi_tx_index := k }

/-- What the caller of `spi_transmit_buffer` owes: the length is a `uint16_t` and a
non-null buffer holds at least `len` bytes.  The other events owe nothing. -/
def caller_ok (e : SpiEvent) : Prop :=
  match e with
  | .transmit p_tx len => len ≤ 65535 ∧ ∀ m, p_tx = some m → len ≤ m.length
  | _ => True

/-- The cursor is within the length, the length is a `uint16_t`, and the installed
buffer holds at least `g_spi_tx_length` bytes. -/
def cursor_inv (s : SpiState) : Prop :=
  s.g_spi_tx_index ≤ s.g_spi_tx_length ∧ s.g_spi_tx_length ≤ 65535 ∧
    ∀ m, s.g_p_spi_tx_buffer = some m → s.g_spi_tx_length ≤ m.length

/-- The driver is in `SPI_STATE_TX_BUSY` exactly when the TXEIE bit of `SPI1_CR2` is
set. -/
def txeie_inv (s : SpiState) : Prop :=
  s.g_spi_state = SPI_STATE_TX_BUSY ↔ txeie_set s.SPI1_CR2

instance (s : SpiState) : Decidable (txeie_inv s) := by
  unfold txeie_inv; infer_instance

/-! ## Lemmas on the SPI driver -/

theorem or_and_self_right (a b : Nat) : (a ||| b) &&& b = b := by
  apply Nat.eq_of_testBit_eq
  intro i
  simp only [Nat.testBit_and, Nat.testBit_or]
  cases a.testBit i <;> cases b.testBit i <;> rfl

/-- One sending step: with a buffer installed and the cursor short of the length, the
byte under the cursor goes to the data register and the cursor advances by one. -/
theorem spi_process_tx_send (s : SpiState) (m : List Byte)
    (hb : s.g_p_spi_tx_buffer = some m)
    (hi : s.g_spi_tx_index < s.g_spi_tx_length)
    (hm : s.g_spi_tx_index < m.length)
    (h16 : s.g_spi_tx_length ≤ 65535) :
    spi_process_tx s =
      some { s with SPI1_DR_log := s.SPI1_DR_log ++ [(m[s.g_spi_tx_index]).val]
                    g_spi_tx_index := s.g_spi_tx_index + 1 } := by
  have hmod : (s.g_spi_tx_index + 1) % 2 ^ 16 = s.g_spi_tx_index + 1 :=
    Nat.mod_eq_of_lt (by omega)
  unfold spi_process_tx
  rw [hb]
  simp only [hi, if_true, List.getElem?_eq_getElem hm, hmod]

/-- The sending step leaves `none` out: it is defined whenever the cursor is inside the
caller's buffer. -/
theorem spi_process_tx_iter_send (m : List Byte) (k : Nat) :
    ∀ s : SpiState, s.g_p_spi_tx_buffer = some m →
      s.g_spi_tx_index + k ≤ s.g_spi_tx_length →
      s.g_spi_tx_length ≤ m.length → s.g_spi_tx_length ≤ 65535 →
      spi_process_tx_iter k s =
        some { s with
          SPI1_DR_log := s.SPI1_DR_log ++ ((m.drop s.g_spi_tx_index).take k).map Fin.val
          g_spi_tx_index := s.g_spi_tx_index + k } := by
  induction k with
  | zero =>
    intro s _ _ _ _
    simp [spi_process_tx_iter]
  | succ k ih =>
    intro s hb hk hm h16
    have hi : s.g_spi_tx_index < s.g_spi_tx_length := by omega
    have hlt : s.g_spi_tx_index < m.length := by omega
    rw [spi_process_tx_iter, spi_process_tx_send s m hb hi hlt h16, Option.some_bind]
    rw [ih { s with SPI1_DR_log := s.SPI1_DR_log ++ [(m[s.g_spi_tx_index]).val]
                    g_spi_tx_index := s.g_spi_tx_index + 1 } hb (by simp only; omega) hm h16]
    simp only [List.drop_eq_getElem_cons hlt, List.take_succ_cons, List.map_cons,
      List.append_assoc, List.singleton_append, Nat.add_assoc, Nat.add_comm 1 k]

/-- While TXEIE is set and the hardware reports TXE, the interrupt handler is
`spi_process_tx`. -/
theorem SPI1_IRQHandler_eq_process (sr : Nat) (s : SpiState)
    (hsr : txe_set sr) (hcr : txeie_set s.SPI1_CR2) :
    SPI1_IRQHandler sr s = spi_process_tx s := by
  unfold SPI1_IRQHandler
  rw [if_pos ⟨hsr, hcr⟩]

/-- During the sending phase a run of interrupts with TXE set does what the same number
of `spi_process_tx` calls does. -/
theorem SPI1_IRQHandler_iter_send (m : List Byte) (srs : List Nat) :
    ∀ s : SpiState, s.g_p_spi_tx_buffer = some m →
      s.g_spi_tx_index + srs.length ≤ s.g_spi_tx_length →
      s.g_spi_tx_length ≤ m.length → s.g_spi_tx_length ≤ 65535 →
      txeie_set s.SPI1_CR2 → (∀ sr ∈ srs, txe_set sr) →
      SPI1_IRQHandler_iter srs s = spi_process_tx_iter srs.length s := by
  induction srs with
  | nil =>
    intro s _ _ _ _ _ _
    rfl
  | cons sr rest ih =>
    intro s hb hk hm h16 hcr hsr
    simp only [List.length_cons] at hk
    have hi : s.g_spi_tx_index < s.g_spi_tx_length := by omega
    have hlt : s.g_spi_tx_index < m.length := by omega
    rw [SPI1_IRQHandler_iter, List.length_cons, spi_process_tx_iter,
      SPI1_IRQHandler_eq_process sr s (hsr sr (List.mem_cons_self _ _)) hcr,
      spi_process_tx_send s m hb hi hlt h16, Option.some_bind, Option.some_bind]
    exact ih { s with SPI1_DR_log := s.SPI1_DR_log ++ [(m[s.g_spi_tx_index]).val]
                      g_spi_tx_index := s.g_spi_tx_index + 1 } hb (by simp only; omega) hm h16 hcr
      (fun x hx => hsr x (List.mem_cons_of_mem _ hx))

/-- After an accepted request the TXEIE bit is set. -/
theorem txeie_set_or (cr2 : Nat) : txeie_set (cr2 ||| (1 <<< SPI_CR2_TXEIE_BIT)) := by
  unfold txeie_set
  rw [or_and_self_right]
  decide

/-- What an accepted `spi_transmit_buffer` returns and leaves behind. -/
theorem spi_transmit_buffer_accept (m : List Byte) (len : Nat) (s : SpiState)
    (hidle : s.g_spi_state = SPI_STATE_IDLE) (hlen : 1 ≤ len) :
    spi_transmit_buffer (some m) len s = (0, tx_started m len s) := by
  have h0 : len ≠ 0 := by omega
  simp [spi_transmit_buffer, tx_started, hidle, h0]

/-- The completing step: once the cursor has reached the length, `spi_process_tx`
takes its `else` branch, whatever the buffer pointer is. -/
theorem spi_process_tx_done (s : SpiState) (hi : ¬ s.g_spi_tx_index < s.g_spi_tx_length) :
    spi_process_tx s = some (spi_tx_complete s) := by
  unfold spi_process_tx
  cases s.g_p_spi_tx_buffer with
  | none => rfl
  | some m => simp only [hi, if_false]

/-- Running `a + b` steps is running `a` steps and then `b` more. -/
theorem spi_process_tx_iter_add (a b : Nat) :
    ∀ s : SpiState,
      spi_process_tx_iter (a + b) s = (spi_process_tx_iter a s).bind (spi_process_tx_iter b) := by
  induction a with
  | zero =>
    intro s
    simp [spi_process_tx_iter]
  | succ a ih =>
    intro s
    rw [Nat.add_right_comm, spi_process_tx_iter, spi_process_tx_iter]
    cases spi_process_tx s with
    | none => rfl
    | some t => simp only [Option.some_bind, ih t]

/-- Interrupts over a concatenated list of status values run one part after the other. -/
theorem SPI1_IRQHandler_iter_append (l1 l2 : List Nat) :
    ∀ s : SpiState,
      SPI1_IRQHandler_iter (l1 ++ l2) s =
        (SPI1_IRQHandler_iter l1 s).bind (SPI1_IRQHandler_iter l2) := by
  induction l1 with
  | nil =>
    intro s
    simp [SPI1_IRQHandler_iter]
  | cons sr rest ih =>
    intro s
    rw [List.cons_append, SPI1_IRQHandler_iter, SPI1_IRQHandler_iter]
    cases SPI1_IRQHandler sr s with
    | none => rfl
    | some t => simp only [Option.some_bind, ih t]

theorem spi_process_tx_iter_all_sent (B : List Byte) (s : SpiState) (h2 : B.length ≤ 65535) :
    spi_process_tx_iter B.length (tx_started B B.length s) = some (tx_all_sent B s) := by
  rw [spi_process_tx_iter_send B B.length (tx_started B B.length s) rfl
    (by simp only [tx_started]; omega) (le_refl _) h2]
  simp [tx_started, tx_all_sent]

theorem SPI1_IRQHandler_iter_all_sent (B : List Byte) (s : SpiState) (h2 : B.length ≤ 65535)
    (srs : List Nat) (hlen : srs.length = B.length) (hsr : ∀ sr ∈ srs, txe_set sr) :
    SPI1_IRQHandler_iter srs (tx_started B B.length s) = some (tx_all_sent B s) := by
  rw [SPI1_IRQHandler_iter_send B srs (tx_started B B.length s) rfl
    (by simp only [tx_started]; omega) (le_refl _) h2 (txeie_set_or _) hsr, hlen]
  exact spi_process_tx_iter_all_sent B s h2

theorem spi_process_tx_all_sent (B : List Byte) (s : SpiState) :
    spi_process_tx (tx_all_sent B s) = some (spi_tx_complete (tx_all_sent B s)) :=
  spi_process_tx_done _ (by simp [tx_all_sent, tx_started])

theorem spi_init_idle (prescaler : Nat) (s : SpiState) :
    (spi_init prescaler s).2.g_spi_state = SPI_STATE_IDLE := rfl

/-- A `spi_process_tx` step keeps `g_spi_state` or makes it idle. -/
theorem spi_process_tx_state (s t : SpiState) (h : spi_process_tx s = some t) :
    t.g_spi_state = s.g_spi_state ∨ t.g_spi_state = SPI_STATE_IDLE := by
  unfold spi_process_tx at h
  split at h
  · cases h
    exact Or.inr rfl
  · split at h
    · split at h
      · cases h
      · cases h
        exact Or.inl rfl
    · cases h
      exact Or.inr rfl

/-- An interrupt keeps `g_spi_state` or makes it idle. -/
theorem SPI1_IRQHandler_state (sr : Nat) (s t : SpiState) (h : SPI1_IRQHandler sr s = some t) :
    t.g_spi_state = s.g_spi_state ∨ t.g_spi_state = SPI_STATE_IDLE := by
  unfold SPI1_IRQHandler at h
  split at h
  · exact spi_process_tx_state s t h
  · cases h
    exact Or.inl rfl

/-- A call of `spi_transmit_buffer` keeps `g_spi_state`, or is accepted by an idle
driver and makes it `SPI_STATE_TX_BUSY`. -/
theorem spi_transmit_buffer_state (p_tx : BytePtr) (len : Nat) (s : SpiState) :
    (spi_transmit_buffer p_tx len s).2.g_spi_state = s.g_spi_state ∨
    (s.g_spi_state = SPI_STATE_IDLE ∧
      (spi_transmit_buffer p_tx len s).2.g_spi_state = SPI_STATE_TX_BUSY ∧
      (spi_transmit_buffer p_tx len s).1 = 0) := by
  unfold spi_transmit_buffer
  split_ifs with h1 h2 h3
  · exact Or.inl rfl
  · exact Or.inl rfl
  · exact Or.inl rfl
  · exact Or.inr ⟨not_not.mp h3, rfl, rfl⟩

/-- Every event keeps the driver idle or transmitting. -/
theorem spi_step_idle_or_tx_busy (e : SpiEvent) (s t : SpiState)
    (hs : idle_or_tx_busy s) (h : spi_step e s = some t) : idle_or_tx_busy t := by
  unfold idle_or_tx_busy at hs ⊢
  cases e with
  | transmit p_tx len =>
    simp only [spi_step, Option.some.injEq] at h
    subst h
    rcases spi_transmit_buffer_state p_tx len s with h1 | ⟨_, h2, _⟩
    · rw [h1]; exact hs
    · exact Or.inr h2
  | irq sr =>
    rcases SPI1_IRQHandler_state sr s t h with h1 | h1
    · rw [h1]; exact hs
    · exact Or.inl h1
  | process_tx =>
    rcases spi_process_tx_state s t h with h1 | h1
    · rw [h1]; exact hs
    · exact Or.inl h1

theorem spi_run_idle_or_tx_busy (evs : List SpiEvent) :
    ∀ s t : SpiState, idle_or_tx_busy s → spi_run evs s = some t → idle_or_tx_busy t := by
  induction evs with
  | nil =>
    intro s t hs h
    simp only [spi_run, Option.some.injEq] at h
    subst h
    exact hs
  | cons e rest ih =>
    intro s t hs h
    rw [spi_run] at h
    cases hstep : spi_step e s with
    | none => rw [hstep] at h; cases h
    | some u =>
      rw [hstep, Option.some_bind] at h
      exact ih u t (spi_step_idle_or_tx_busy e s u hs hstep) h

/-- A list with at least six elements starts with six elements. -/
theorem six_bytes_of_length (m : List Byte) (hm : 6 ≤ m.length) :
    ∃ a b c d e f rest, m = a :: b :: c :: d :: e :: f :: rest := by
  obtain _ | ⟨a, _ | ⟨b, _ | ⟨c, _ | ⟨d, _ | ⟨e, _ | ⟨f, rest⟩⟩⟩⟩⟩⟩ := m
  all_goals first
    | exact ⟨_, _, _, _, _, _, _, rfl⟩
    | (simp only [List.length_cons, List.length_nil] at hm; omega)

/-- The copy loop of `enc28j60_init` on a buffer of at least six bytes: it is defined
and stores the first six bytes, in order. -/
theorem enc28j60_init_loop (m : List Byte) (hm : 6 ≤ m.length) (mac0 : Fin 6 → Byte) :
    ∃ mac, (List.finRange 6).foldlM (enc28j60_init_copy m) mac0 = some mac ∧
      List.ofFn mac = m.take 6 := by
  obtain ⟨a, b, c, d, e, f, rest, rfl⟩ := six_bytes_of_length m hm
  have h3 : ((3 : Fin 6) : Nat) = 3 := rfl
  have h4 : ((4 : Fin 6) : Nat) = 4 := rfl
  have h5 : ((5 : Fin 6) : Nat) = 5 := rfl
  have hr : List.finRange 6 = [0, 1, 2, 3, 4, 5] := by decide
  refine ⟨Function.update (Function.update (Function.update (Function.update
    (Function.update (Function.update mac0 0 a) 1 b) 2 c) 3 d) 4 e) 5 f, ?_, rfl⟩
  rw [hr]
  simp [List.foldlM, enc28j60_init_copy, h3, h4, h5]

/-- With a non-null argument `enc28j60_init` returns 0 or is undefined; it never
returns a non-zero code. -/
theorem enc28j60_init_some (m : List Byte) (s : EncState) (r : Int) (t : EncState)
    (h : enc28j60_init (some m) s = some (r, t)) :
    r = 0 ∧ t.g_enc28j60_state = ENC28J60_STATE_READY := by
  unfold enc28j60_init at h
  simp only at h
  split at h
  · cases h
  · cases h
    exact ⟨rfl, rfl⟩

/-! ## Lemmas on the statement-level model -/

/-- Run without interruption, the eleven statements of `spi_transmit_buffer` return what
the function `spi_transmit_buffer` returns and leave the driver state it leaves. -/
theorem spi_transmit_buffer_stmts_eq (p_tx : BytePtr) (len : Nat) (c : Cpu) :
    (spi_transmit_buffer_stmts p_tx len 11 (TxPc.at_check_ptr, c)).1 =
        TxPc.returned (spi_transmit_buffer p_tx len c.spi).1 ∧
    (spi_transmit_buffer_stmts p_tx len 11 (TxPc.at_check_ptr, c)).2.spi =
        (spi_transmit_buffer p_tx len c.spi).2 := by
  by_cases hp : p_tx = none
  · simp [spi_transmit_buffer_stmts, spi_transmit_buffer_stmt, spi_transmit_buffer, hp]
  · by_cases hl : len = 0
    · simp [spi_transmit_buffer_stmts, spi_transmit_buffer_stmt, spi_transmit_buffer, hp, hl]
    · by_cases hs : c.spi.g_spi_state = SPI_STATE_IDLE
      · simp [spi_transmit_buffer_stmts, spi_transmit_buffer_stmt, spi_transmit_buffer, hp, hl,
          hs, __disable_irq, __enable_irq]
      · simp [spi_transmit_buffer_stmts, spi_transmit_buffer_stmt, spi_transmit_buffer, hp, hl,
          hs, __disable_irq, __enable_irq]

/-- A request is accepted only by an idle driver, and leaves it busy. -/
theorem spi_transmit_buffer_zero (p_tx : BytePtr) (len : Nat) (s : SpiState)
    (h : (spi_transmit_buffer p_tx len s).1 = 0) :
    s.g_spi_state = SPI_STATE_IDLE ∧
    (spi_transmit_buffer p_tx len s).2.g_spi_state = SPI_STATE_TX_BUSY := by
  unfold spi_transmit_buffer at h ⊢
  split_ifs at h ⊢ with h1 h2 h3
  · simp at h
  · simp at h
  · simp at h
  · exact ⟨not_not.mp h3, rfl⟩

/-- No request makes a busy driver idle. -/
theorem spi_transmit_buffer_not_idle (p_tx : BytePtr) (len : Nat) (s : SpiState)
    (h : s.g_spi_state ≠ SPI_STATE_IDLE) :
    (spi_transmit_buffer p_tx len s).2.g_spi_state ≠ SPI_STATE_IDLE := by
  rcases spi_transmit_buffer_state p_tx len s with h1 | ⟨h0, _, _⟩
  · rw [h1]; exact h
  · exact absurd h0 h

theorem conc_inv_start (c : Cpu) : conc_inv (conc_start c) := by
  simp [conc_inv, conc_start]

theorem conc_step_fg_inv (p_tx : BytePtr) (len : Nat) (k t : Conc)
    (hk : conc_inv k) (h : conc_step p_tx len Sched.fg k = some t) : conc_inv t := by
  obtain ⟨pc, cpu, codes⟩ := k
  cases pc with
  | at_check_ptr =>
    simp only [conc_step, spi_transmit_buffer_stmt, Option.some.injEq] at h
    subst h
    by_cases hp : p_tx = none <;> simpa [conc_inv, hp] using hk
  | at_check_len =>
    simp only [conc_step, spi_transmit_buffer_stmt, Option.some.injEq] at h
    subst h
    by_cases hl : len = 0 <;> simpa [conc_inv, hl] using hk
  | at_disable_irq =>
    simp only [conc_step, spi_transmit_buffer_stmt, Option.some.injEq] at h
    subst h
    simpa [conc_inv, __disable_irq] using hk
  | at_check_state =>
    simp only [conc_step, spi_transmit_buffer_stmt, Option.some.injEq] at h
    subst h
    simp only [conc_inv] at hk
    obtain ⟨hm, hle, himp⟩ := hk
    by_cases hs : cpu.spi.g_spi_state = SPI_STATE_IDLE
    · have h0 : List.count 0 codes = 0 := by
        by_contra hne
        exact himp (by omega) hs
      simp [conc_inv, hs, hm, h0]
    · simp only [conc_inv, ne_eq, hs, not_false_eq_true, if_true]
      exact ⟨hm, hle, fun _ => trivial⟩
  | at_busy_enable_irq =>
    simp only [conc_step, spi_transmit_buffer_stmt, Option.some.injEq] at h
    subst h
    simp only [conc_inv, __enable_irq] at hk ⊢
    exact hk.2
  | at_set_state =>
    simp only [conc_step, spi_transmit_buffer_stmt, Option.some.injEq] at h
    subst h
    simp only [conc_inv] at hk ⊢
    exact ⟨hk.1, by decide, hk.2.2⟩
  | at_enable_irq =>
    simp only [conc_step, spi_transmit_buffer_stmt, Option.some.injEq] at h
    subst h
    simp only [conc_inv, __enable_irq] at hk ⊢
    exact hk.2
  | at_set_buffer =>
    simp only [conc_step, spi_transmit_buffer_stmt, Option.some.injEq] at h
    subst h
    simpa [conc_inv] using hk
  | at_set_length =>
    simp only [conc_step, spi_transmit_buffer_stmt, Option.some.injEq] at h
    subst h
    simpa [conc_inv] using hk
  | at_set_index =>
    simp only [conc_step, spi_transmit_buffer_stmt, Option.some.injEq] at h
    subst h
    simpa [conc_inv] using hk
  | at_set_txeie =>
    simp only [conc_step, spi_transmit_buffer_stmt, Option.some.injEq] at h
    subst h
    simpa [conc_inv] using hk
  | returned code =>
    simp [conc_step] at h

theorem conc_inv_returned_ne (code : Int) (hc : code ≠ 0) (cpu : Cpu) (codes : List Int) :
    conc_inv { pc := TxPc.returned code, cpu := cpu, isr_codes := codes } =
      (List.count 0 codes ≤ 1 ∧
        (List.count 0 codes = 1 → cpu.spi.g_spi_state ≠ SPI_STATE_IDLE)) := by
  unfold conc_inv
  split <;> simp_all

theorem conc_step_isr_inv (p_tx : BytePtr) (len : Nat) (q : BytePtr) (n : Nat) (k t : Conc)
    (hk : conc_inv k) (h : conc_step p_tx len (Sched.isr q n) k = some t) : conc_inv t := by
  obtain ⟨pc, cpu, codes⟩ := k
  simp only [conc_step] at h
  split_ifs at h with hm
  simp only [Option.some.injEq] at h
  subst h
  have hret := spi_transmit_buffer_zero q n cpu.spi
  have hbusy := spi_transmit_buffer_not_idle q n cpu.spi
  have hweak : List.count 0 codes ≤ 1 ∧
      (List.count 0 codes = 1 → cpu.spi.g_spi_state ≠ SPI_STATE_IDLE) →
      List.count 0 ((spi_transmit_buffer q n cpu.spi).1 :: codes) ≤ 1 ∧
      (List.count 0 ((spi_transmit_buffer q n cpu.spi).1 :: codes) = 1 →
        (spi_transmit_buffer q n cpu.spi).2.g_spi_state ≠ SPI_STATE_IDLE) := by
    rintro ⟨hle, himp⟩
    by_cases hr : (spi_transmit_buffer q n cpu.spi).1 = 0
    · obtain ⟨hidle, htx⟩ := hret hr
      have h0 : List.count 0 codes = 0 := by
        by_contra hne
        exact himp (by omega) hidle
      rw [hr, List.count_cons_self, h0, htx]
      exact ⟨le_refl _, fun _ => by decide⟩
    · rw [List.count_cons_of_ne (fun h => hr h.symm)]
      exact ⟨hle, fun h1 => hbusy (himp h1)⟩
  have hstrong : cpu.spi.g_spi_state ≠ SPI_STATE_IDLE ∧ List.count 0 codes = 0 →
      (spi_transmit_buffer q n cpu.spi).2.g_spi_state ≠ SPI_STATE_IDLE ∧
      List.count 0 ((spi_transmit_buffer q n cpu.spi).1 :: codes) = 0 := by
    rintro ⟨hs, h0⟩
    have hr : (spi_transmit_buffer q n cpu.spi).1 ≠ 0 := fun hr => hs (hret hr).1
    rw [List.count_cons_of_ne (fun h => hr h.symm)]
    exact ⟨hbusy hs, h0⟩
  cases pc with
  | at_check_ptr => exact hweak hk
  | at_check_len => exact hweak hk
  | at_disable_irq => exact hweak hk
  | at_check_state => exact absurd hk.1 hm
  | at_busy_enable_irq => exact absurd hk.1 hm
  | at_set_state => exact absurd hk.1 hm
  | at_enable_irq => exact absurd hk.1 hm
  | at_set_buffer => exact hstrong hk
  | at_set_length => exact hstrong hk
  | at_set_index => exact hstrong hk
  | at_set_txeie => exact hstrong hk
  | returned code =>
    by_cases hc : code = 0
    · subst hc
      exact hstrong hk
    · rw [conc_inv_returned_ne code hc] at hk ⊢
      exact hweak hk

theorem conc_run_inv (p_tx : BytePtr) (len : Nat) (sched : List Sched) :
    ∀ k t : Conc, conc_inv k → conc_run p_tx len sched k = some t → conc_inv t := by
  induction sched with
  | nil =>
    intro k t hk h
    simp only [conc_run, Option.some.injEq] at h
    subst h
    exact hk
  | cons e rest ih =>
    intro k t hk h
    rw [conc_run] at h
    cases hstep : conc_step p_tx len e k with
    | none => rw [hstep] at h; cases h
    | some u =>
      rw [hstep, Option.some_bind] at h
      refine ih u t ?_ h
      cases e with
      | fg => exact conc_step_fg_inv p_tx len k u hk hstep
      | isr q n => exact conc_step_isr_inv p_tx len q n k u hk hstep

/-- Under the invariant at most one request has been accepted. -/
theorem accepted_le_one (k : Conc) (hk : conc_inv k) : accepted k ≤ 1 := by
  obtain ⟨pc, cpu, codes⟩ := k
  unfold accepted
  cases pc with
  | returned code =>
    by_cases hc : code = 0
    · subst hc
      have h0 : List.count 0 codes = 0 := hk.2
      simp [h0]
    · rw [conc_inv_returned_ne code hc] at hk
      have hne : (TxPc.returned code = TxPc.returned 0) = False := by simp [hc]
      simp only [hne, if_false, Nat.zero_add]
      exact hk.1
  | at_check_ptr => simpa using hk.1
  | at_check_len => simpa using hk.1
  | at_disable_irq => simpa using hk.1
  | at_check_state => simpa using hk.2.1
  | at_busy_enable_irq => simpa using hk.2.1
  | at_set_state => simp [(hk.2.2 : List.count 0 codes = 0)]
  | at_enable_irq => simp [(hk.2.2 : List.count 0 codes = 0)]
  | at_set_buffer => simp [(hk.2 : List.count 0 codes = 0)]
  | at_set_length => simp [(hk.2 : List.count 0 codes = 0)]
  | at_set_index => simp [(hk.2 : List.count 0 codes = 0)]
  | at_set_txeie => simp [(hk.2 : List.count 0 codes = 0)]

/-- Under the invariant interrupts are masked at lines 108, 109, 113 and 114. -/
theorem masked_in_critical_section (k : Conc) (hk : conc_inv k)
    (hpc : k.pc = TxPc.at_check_state ∨ k.pc = TxPc.at_busy_enable_irq ∨
      k.pc = TxPc.at_set_state ∨ k.pc = TxPc.at_enable_irq) :
    k.cpu.primask = true := by
  obtain ⟨pc, cpu, codes⟩ := k
  simp only at hpc
  rcases hpc with h | h | h | h <;> subst h <;> exact hk.1

/-! ## Claims on the SPI bus engine -/

/-- C1: for every buffer `B` of length `n`, `1 ≤ n ≤ 65535`, and every state with
`g_spi_state` idle, `spi_transmit_buffer(B, n)` is accepted (returns 0) and the `n`
interrupt steps that follow, taken as `spi_process_tx` calls or as `SPI1_IRQHandler`
runs with TXE set, are all defined and append to the data register log exactly the
bytes `B[0], ..., B[n-1]` in that order and nothing else; after the first `k ≤ n` of
them the log has grown by exactly the first `k` bytes of `B`. -/
theorem C1_transmit_then_irq_sends_buffer (B : List Byte) (s : SpiState)
    (hidle : s.g_spi_state = SPI_STATE_IDLE)
    (h1 : 1 ≤ B.length) (h2 : B.length ≤ 65535) :
    (spi_transmit_buffer (some B) B.length s).1 = 0 ∧
    (∀ k, k ≤ B.length →
      (spi_process_tx_iter k (spi_transmit_buffer (some B) B.length s).2).map
        (fun t => t.SPI1_DR_log) = some (s.SPI1_DR_log ++ (B.take k).map Fin.val)) ∧
    (spi_process_tx_iter B.length (spi_transmit_buffer (some B) B.length s).2).map
        (fun t => t.SPI1_DR_log) = some (s.SPI1_DR_log ++ B.map Fin.val) ∧
    (∀ srs : List Nat, srs.length = B.length → (∀ sr ∈ srs, txe_set sr) →
      (SPI1_IRQHandler_iter srs (spi_transmit_buffer (some B) B.length s).2).map
        (fun t => t.SPI1_DR_log) = some (s.SPI1_DR_log ++ B.map Fin.val)) := by
  rw [spi_transmit_buffer_accept B B.length s hidle h1]
  have hsteps : ∀ k, k ≤ B.length →
      (spi_process_tx_iter k (tx_started B B.length s)).map (fun t => t.SPI1_DR_log) =
        some (s.SPI1_DR_log ++ (B.take k).map Fin.val) := by
    intro k hk
    rw [spi_process_tx_iter_send B k (tx_started B B.length s) rfl
      (by simp only [tx_started]; omega) (le_refl _) h2]
    simp [tx_started]
  refine ⟨rfl, hsteps, ?_, ?_⟩
  · have h := hsteps B.length (le_refl _)
    rwa [List.take_length] at h
  · intro srs hlen hsr
    rw [SPI1_IRQHandler_iter_send B srs (tx_started B B.length s) rfl
      (by simp only [tx_started]; omega) (le_refl _) h2 (txeie_set_or _) hsr, hlen]
    have h := hsteps B.length (le_refl _)
    rwa [List.take_length] at h

/-- Witness for C1 on the buffer `AA 55 01` from the boot state. -/
theorem C1_transmit_then_irq_sends_buffer_witness :
    (spi_boot 0 0).g_spi_state = SPI_STATE_IDLE ∧
    (spi_process_tx_iter 3 (spi_transmit_buffer (some [0xAA, 0x55, 0x01]) 3 (spi_boot 0 0)).2).map
        (fun t => t.SPI1_DR_log) = some [0xAA, 0x55, 0x01] :=
  ⟨rfl, (C1_transmit_then_irq_sends_buffer [0xAA, 0x55, 0x01] (spi_boot 0 0) rfl
    (by decide) (by decide)).2.2.1⟩

/-- C2 (refuted as stated): after an accepted one-byte request and exactly one interrupt
step the driver is still `SPI_STATE_TX_BUSY`, not idle, whether the step is a
`spi_process_tx` call or an `SPI1_IRQHandler` run with TXE set. -/
theorem C2_not_idle_after_n_steps :
    (spi_boot 0 0).g_spi_state = SPI_STATE_IDLE ∧
    (spi_transmit_buffer (some [0xAA]) 1 (spi_boot 0 0)).1 = 0 ∧
    (spi_process_tx_iter 1 (spi_transmit_buffer (some [0xAA]) 1 (spi_boot 0 0)).2).map
      (fun t => t.g_spi_state) = some SPI_STATE_TX_BUSY ∧
    (spi_process_tx_iter 1 (spi_transmit_buffer (some [0xAA]) 1 (spi_boot 0 0)).2).map
      (fun t => t.g_spi_state) ≠ some SPI_STATE_IDLE ∧
    (SPI1_IRQHandler_iter [2] (spi_transmit_buffer (some [0xAA]) 1 (spi_boot 0 0)).2).map
      (fun t => t.g_spi_state) ≠ some SPI_STATE_IDLE := by
  decide

/-- C2 (amended): for every buffer `B` of length `n`, `1 ≤ n ≤ 65535`, from an idle
driver, an accepted `spi_transmit_buffer(B, n)` followed by exactly `n` interrupt steps
leaves `g_spi_state == SPI_STATE_TX_BUSY`; followed by exactly `n + 1` interrupt steps
it leaves `g_spi_state == SPI_STATE_IDLE`.  Both hold for `spi_process_tx` calls and
for `SPI1_IRQHandler` runs with TXE set. -/
theorem C2_idle_after_n_plus_one_steps (B : List Byte) (s : SpiState)
    (hidle : s.g_spi_state = SPI_STATE_IDLE)
    (h1 : 1 ≤ B.length) (h2 : B.length ≤ 65535) :
    (spi_transmit_buffer (some B) B.length s).1 = 0 ∧
    (spi_process_tx_iter B.length (spi_transmit_buffer (some B) B.length s).2).map
      (fun t => t.g_spi_state) = some SPI_STATE_TX_BUSY ∧
    (spi_process_tx_iter (B.length + 1) (spi_transmit_buffer (some B) B.length s).2).map
      (fun t => t.g_spi_state) = some SPI_STATE_IDLE ∧
    (∀ srs : List Nat, srs.length = B.length → (∀ sr ∈ srs, txe_set sr) →
      (SPI1_IRQHandler_iter srs (spi_transmit_buffer (some B) B.length s).2).map
        (fun t => t.g_spi_state) = some SPI_STATE_TX_BUSY) ∧
    (∀ srs : List Nat, srs.length = B.length + 1 → (∀ sr ∈ srs, txe_set sr) →
      (SPI1_IRQHandler_iter srs (spi_transmit_buffer (some B) B.length s).2).map
        (fun t => t.g_spi_state) = some SPI_STATE_IDLE) := by
  rw [spi_transmit_buffer_accept B B.length s hidle h1]
  refine ⟨rfl, ?_, ?_, ?_, ?_⟩
  · rw [spi_process_tx_iter_all_sent B s h2]
    rfl
  · rw [spi_process_tx_iter_add, spi_process_tx_iter_all_sent B s h2, Option.some_bind,
      spi_process_tx_iter, spi_process_tx_all_sent, Option.some_bind, spi_process_tx_iter]
    rfl
  · intro srs hlen hsr
    rw [SPI1_IRQHandler_iter_all_sent B s h2 srs hlen hsr]
    rfl
  · intro srs hlen hsr
    have hsplit : srs = srs.take B.length ++ srs.drop B.length := (List.take_append_drop _ _).symm
    have htake : (srs.take B.length).length = B.length := by
      rw [List.length_take]; omega
    have hdrop : (srs.drop B.length).length = 1 := by
      rw [List.length_drop]; omega
    obtain ⟨sr, hsr1⟩ := List.length_eq_one.mp hdrop
    have hmem : sr ∈ srs := by
      have : sr ∈ srs.drop B.length := by rw [hsr1]; exact List.mem_singleton_self sr
      exact List.mem_of_mem_drop this
    rw [hsplit, SPI1_IRQHandler_iter_append,
      SPI1_IRQHandler_iter_all_sent B s h2 _ htake
        (fun x hx => hsr x (List.mem_of_mem_take hx)),
      Option.some_bind, hsr1, SPI1_IRQHandler_iter,
      SPI1_IRQHandler_eq_process sr _ (hsr sr hmem)
        (by simp only [tx_all_sent, tx_started]; exact txeie_set_or _),
      spi_process_tx_all_sent, Option.some_bind, SPI1_IRQHandler_iter]
    rfl

/-- Witness for the amended C2 on the buffer `AA 55 01` from the boot state. -/
theorem C2_idle_after_n_plus_one_steps_witness :
    (spi_boot 0 0).g_spi_state = SPI_STATE_IDLE ∧
    (spi_process_tx_iter 4 (spi_transmit_buffer (some [0xAA, 0x55, 0x01]) 3 (spi_boot 0 0)).2).map
      (fun t => t.g_spi_state) = some SPI_STATE_IDLE :=
  ⟨rfl, (C2_idle_after_n_plus_one_steps [0xAA, 0x55, 0x01] (spi_boot 0 0) rfl
    (by decide) (by decide)).2.2.1⟩

/-- C3 (refuted as stated): with the driver in `SPI_STATE_TX_BUSY`, a call with a
`NULL` buffer returns -1, and so does a call with length 0; neither returns -2. -/
theorem C3_busy_null_returns_invalid :
    (tx_started [0xAA] 1 (spi_boot 0 0)).g_spi_state ≠ SPI_STATE_IDLE ∧
    (spi_transmit_buffer none 4 (tx_started [0xAA] 1 (spi_boot 0 0))).1 = -1 ∧
    (spi_transmit_buffer none 4 (tx_started [0xAA] 1 (spi_boot 0 0))).1 ≠ -2 ∧
    (spi_transmit_buffer (some [0x01]) 0 (tx_started [0xAA] 1 (spi_boot 0 0))).1 ≠ -2 := by
  decide

/-- C3 (amended): whenever `g_spi_state` is not `SPI_STATE_IDLE`, `spi_transmit_buffer`
returns -2 for every call whose buffer pointer is not null and whose length is not
zero; when the pointer is null or the length is zero it returns -1. -/
theorem C3_busy_returns_busy_for_valid_args (s : SpiState) (p_tx : BytePtr) (len : Nat)
    (hbusy : s.g_spi_state ≠ SPI_STATE_IDLE) :
    (p_tx ≠ none ∧ len ≠ 0 → (spi_transmit_buffer p_tx len s).1 = -2) ∧
    (p_tx = none ∨ len = 0 → (spi_transmit_buffer p_tx len s).1 = -1) := by
  constructor
  · rintro ⟨hp, hl⟩
    simp [spi_transmit_buffer, hp, hl, hbusy]
  · rintro (hp | hl)
    · simp [spi_transmit_buffer, hp]
    · by_cases hp : p_tx = none
      · simp [spi_transmit_buffer, hp]
      · simp [spi_transmit_buffer, hp, hl]

/-- Witness for the amended C3: a second request while the first is in flight. -/
theorem C3_busy_returns_busy_for_valid_args_witness :
    (tx_started [0xAA] 1 (spi_boot 0 0)).g_spi_state ≠ SPI_STATE_IDLE ∧
    (spi_transmit_buffer (some [0x01, 0x02]) 2 (tx_started [0xAA] 1 (spi_boot 0 0))).1 = -2 :=
  ⟨by decide, (C3_busy_returns_busy_for_valid_args (tx_started [0xAA] 1 (spi_boot 0 0))
    (some [0x01, 0x02]) 2 (by decide)).1 ⟨by decide, by decide⟩⟩

/-- C4: a call of `spi_transmit_buffer` made while `g_spi_state` is not
`SPI_STATE_IDLE` changes nothing, for every argument pair: the buffer reference,
`g_spi_tx_length`, `g_spi_tx_index`, `g_spi_state` and `SPI1_CR2` are as before, and so
is the rest of the driver state. -/
theorem C4_busy_call_changes_nothing (s : SpiState) (p_tx : BytePtr) (len : Nat)
    (hbusy : s.g_spi_state ≠ SPI_STATE_IDLE) :
    (spi_transmit_buffer p_tx len s).2.g_p_spi_tx_buffer = s.g_p_spi_tx_buffer ∧
    (spi_transmit_buffer p_tx len s).2.g_spi_tx_length = s.g_spi_tx_length ∧
    (spi_transmit_buffer p_tx len s).2.g_spi_tx_index = s.g_spi_tx_index ∧
    (spi_transmit_buffer p_tx len s).2.g_spi_state = s.g_spi_state ∧
    (spi_transmit_buffer p_tx len s).2.SPI1_CR2 = s.SPI1_CR2 ∧
    (spi_transmit_buffer p_tx len s).2 = s := by
  have h : (spi_transmit_buffer p_tx len s).2 = s := by
    unfold spi_transmit_buffer
    split_ifs <;> rfl
  rw [h]
  exact ⟨rfl, rfl, rfl, rfl, rfl, rfl⟩

/-- Witness for C4: a second request issued before the first one completed. -/
theorem C4_busy_call_changes_nothing_witness :
    (tx_started [0xAA] 1 (spi_boot 0 0)).g_spi_state ≠ SPI_STATE_IDLE ∧
    (spi_transmit_buffer (some [0x01, 0x02]) 2 (tx_started [0xAA] 1 (spi_boot 0 0))).2 =
      tx_started [0xAA] 1 (spi_boot 0 0) :=
  ⟨by decide, (C4_busy_call_changes_nothing (tx_started [0xAA] 1 (spi_boot 0 0))
    (some [0x01, 0x02]) 2 (by decide)).2.2.2.2.2⟩

/-- C5: `spi_transmit_buffer` returns -1 whenever the buffer pointer is null or the
length is 0, in every bus state, and then leaves `g_spi_state`, the buffer reference,
the length, the cursor and `SPI1_CR2` (indeed the whole driver state) unchanged. -/
theorem C5_invalid_argument (s : SpiState) (p_tx : BytePtr) (len : Nat)
    (harg : p_tx = none ∨ len = 0) :
    (spi_transmit_buffer p_tx len s).1 = -1 ∧
    (spi_transmit_buffer p_tx len s).2.g_spi_state = s.g_spi_state ∧
    (spi_transmit_buffer p_tx len s).2.g_p_spi_tx_buffer = s.g_p_spi_tx_buffer ∧
    (spi_transmit_buffer p_tx len s).2.g_spi_tx_length = s.g_spi_tx_length ∧
    (spi_transmit_buffer p_tx len s).2.g_spi_tx_index = s.g_spi_tx_index ∧
    (spi_transmit_buffer p_tx len s).2.SPI1_CR2 = s.SPI1_CR2 ∧
    (spi_transmit_buffer p_tx len s).2 = s := by
  have h : spi_transmit_buffer p_tx len s = (-1, s) := by
    rcases harg with hp | hl
    · simp [spi_transmit_buffer, hp]
    · by_cases hp : p_tx = none
      · simp [spi_transmit_buffer, hp]
      · simp [spi_transmit_buffer, hp, hl]
  rw [h]
  exact ⟨rfl, rfl, rfl, rfl, rfl, rfl, rfl⟩

/-- Witness for C5: a null buffer offered to an idle driver and a zero length offered
to a busy one. -/
theorem C5_invalid_argument_witness :
    (spi_transmit_buffer none 8 (spi_boot 0 0)).1 = -1 ∧
    (spi_transmit_buffer (some [0x01]) 0 (tx_started [0xAA] 1 (spi_boot 0 0))).1 = -1 :=
  ⟨(C5_invalid_argument (spi_boot 0 0) none 8 (Or.inl rfl)).1,
   (C5_invalid_argument (tx_started [0xAA] 1 (spi_boot 0 0)) (some [0x01]) 0 (Or.inr rfl)).1⟩

/-- C6: for every non-null buffer and every length `len ≥ 1`, `spi_transmit_buffer`
called with `g_spi_state == SPI_STATE_IDLE` returns 0; on return `g_spi_state` is
`SPI_STATE_TX_BUSY`, the transaction is buffer `p_tx`, length `len`, cursor 0, the TXEIE
bit (bit 7) of `SPI1_CR2` is set and every other bit of `SPI1_CR2` is as before. -/
theorem C6_accepted_request (s : SpiState) (m : List Byte) (len : Nat)
    (hidle : s.g_spi_state = SPI_STATE_IDLE) (hlen : 1 ≤ len) :
    (spi_transmit_buffer (some m) len s).1 = 0 ∧
    (spi_transmit_buffer (some m) len s).2.g_spi_state = SPI_STATE_TX_BUSY ∧
    (spi_transmit_buffer (some m) len s).2.g_p_spi_tx_buffer = some m ∧
    (spi_transmit_buffer (some m) len s).2.g_spi_tx_length = len ∧
    (spi_transmit_buffer (some m) len s).2.g_spi_tx_index = 0 ∧
    (spi_transmit_buffer (some m) len s).2.SPI1_CR2.testBit SPI_CR2_TXEIE_BIT = true ∧
    (∀ i, i ≠ SPI_CR2_TXEIE_BIT →
      (spi_transmit_buffer (some m) len s).2.SPI1_CR2.testBit i = s.SPI1_CR2.testBit i) := by
  rw [spi_transmit_buffer_accept m len s hidle hlen]
  refine ⟨rfl, rfl, rfl, rfl, rfl, ?_, ?_⟩
  · simp [tx_started, Nat.testBit_or, Nat.one_shiftLeft, Nat.testBit_two_pow_self]
  · intro i hi
    have hi2 : SPI_CR2_TXEIE_BIT ≠ i := fun h => hi h.symm
    simp [tx_started, Nat.testBit_or, Nat.one_shiftLeft, Nat.testBit_two_pow, hi2]

/-- Witness for C6: a three-byte request on the boot state with `SPI1_CR2 = 0x1700`. -/
theorem C6_accepted_request_witness :
    (spi_boot 0 0x1700).g_spi_state = SPI_STATE_IDLE ∧
    (spi_transmit_buffer (some [0xAA, 0x55, 0x01]) 3 (spi_boot 0 0x1700)).1 = 0 ∧
    (spi_transmit_buffer (some [0xAA, 0x55, 0x01]) 3 (spi_boot 0 0x1700)).2.g_spi_state =
      SPI_STATE_TX_BUSY :=
  ⟨rfl, (C6_accepted_request (spi_boot 0 0x1700) [0xAA, 0x55, 0x01] 3 rfl (by decide)).1,
   (C6_accepted_request (spi_boot 0 0x1700) [0xAA, 0x55, 0x01] 3 rfl (by decide)).2.1⟩

/-- C7: every state reached from the state `spi_init` establishes, through any
sequence of `spi_transmit_buffer` calls, `SPI1_IRQHandler` runs and `spi_process_tx`
steps, has `g_spi_state` idle or `SPI_STATE_TX_BUSY`, never `SPI_STATE_RX_BUSY` or
`SPI_STATE_ERROR`; and any further event from such a state either keeps `g_spi_state`,
or takes it from idle to `SPI_STATE_TX_BUSY` by an accepted transmit request, or takes
it from `SPI_STATE_TX_BUSY` to idle by an interrupt step. -/
theorem C7_only_idle_and_tx_busy (prescaler : Nat) (s0 : SpiState) (evs : List SpiEvent)
    (s : SpiState) (hrun : spi_run evs (spi_init prescaler s0).2 = some s) :
    (s.g_spi_state = SPI_STATE_IDLE ∨ s.g_spi_state = SPI_STATE_TX_BUSY) ∧
    s.g_spi_state ≠ SPI_STATE_RX_BUSY ∧ s.g_spi_state ≠ SPI_STATE_ERROR ∧
    (∀ (e : SpiEvent) (t : SpiState), spi_step e s = some t →
      t.g_spi_state = s.g_spi_state ∨
      (s.g_spi_state = SPI_STATE_IDLE ∧ t.g_spi_state = SPI_STATE_TX_BUSY ∧
        ∃ p_tx len, e = SpiEvent.transmit p_tx len ∧ (spi_transmit_buffer p_tx len s).1 = 0) ∨
      (s.g_spi_state = SPI_STATE_TX_BUSY ∧ t.g_spi_state = SPI_STATE_IDLE ∧
        (e = SpiEvent.process_tx ∨ ∃ sr, e = SpiEvent.irq sr))) := by
  have hs : idle_or_tx_busy s :=
    spi_run_idle_or_tx_busy evs _ s (Or.inl (spi_init_idle prescaler s0)) hrun
  have hs2 := hs
  unfold idle_or_tx_busy at hs2
  refine ⟨hs2, ?_, ?_, ?_⟩
  · rcases hs2 with h | h <;> rw [h] <;> decide
  · rcases hs2 with h | h <;> rw [h] <;> decide
  · intro e t hstep
    cases e with
    | transmit p_tx len =>
      simp only [spi_step, Option.some.injEq] at hstep
      subst hstep
      rcases spi_transmit_buffer_state p_tx len s with h1 | ⟨h0, h2, h3⟩
      · exact Or.inl h1
      · exact Or.inr (Or.inl ⟨h0, h2, p_tx, len, rfl, h3⟩)
    | irq sr =>
      rcases SPI1_IRQHandler_state sr s t hstep with h1 | h1
      · exact Or.inl h1
      · rcases hs2 with h | h
        · exact Or.inl (h1.trans h.symm)
        · exact Or.inr (Or.inr ⟨h, h1, Or.inr ⟨sr, rfl⟩⟩)
    | process_tx =>
      rcases spi_process_tx_state s t hstep with h1 | h1
      · exact Or.inl h1
      · rcases hs2 with h | h
        · exact Or.inl (h1.trans h.symm)
        · exact Or.inr (Or.inr ⟨h, h1, Or.inl rfl⟩)

/-- Witness for C7: after `spi_init`, a two-byte request, a rejected second request and
three interrupts bring the driver back to idle. -/
theorem C7_only_idle_and_tx_busy_witness :
    spi_run [SpiEvent.transmit (some [0xAA, 0x55]) 2, SpiEvent.transmit (some [0x01]) 1,
        SpiEvent.irq 2, SpiEvent.irq 2, SpiEvent.irq 2]
      (spi_init 1 (spi_boot 0 0)).2 =
      some { SPI1_CR1 := 0x34C, SPI1_CR2 := 0x1700, SPI1_DR_log := [0xAA, 0x55],
             g_p_spi_tx_buffer := none, g_spi_tx_length := 2, g_spi_tx_index := 2,
             g_spi_state := SPI_STATE_IDLE, g_spi_initialized := true } ∧
    (SPI_STATE_IDLE ≠ SPI_STATE_RX_BUSY ∧ SPI_STATE_IDLE ≠ SPI_STATE_ERROR) :=
  ⟨by decide,
   (C7_only_idle_and_tx_busy 1 (spi_boot 0 0)
      [SpiEvent.transmit (some [0xAA, 0x55]) 2, SpiEvent.transmit (some [0x01]) 1,
        SpiEvent.irq 2, SpiEvent.irq 2, SpiEvent.irq 2]
      { SPI1_CR1 := 0x34C, SPI1_CR2 := 0x1700, SPI1_DR_log := [0xAA, 0x55],
        g_p_spi_tx_buffer := none, g_spi_tx_length := 2, g_spi_tx_index := 2,
        g_spi_state := SPI_STATE_IDLE, g_spi_initialized := true } (by decide)).2.1,
   (C7_only_idle_and_tx_busy 1 (spi_boot 0 0)
      [SpiEvent.transmit (some [0xAA, 0x55]) 2, SpiEvent.transmit (some [0x01]) 1,
        SpiEvent.irq 2, SpiEvent.irq 2, SpiEvent.irq 2]
      { SPI1_CR1 := 0x34C, SPI1_CR2 := 0x1700, SPI1_DR_log := [0xAA, 0x55],
        g_p_spi_tx_buffer := none, g_spi_tx_length := 2, g_spi_tx_index := 2,
        g_spi_state := SPI_STATE_IDLE, g_spi_initialized := true } (by decide)).2.2.1⟩

/-- C8: in every schedule of one foreground call `spi_transmit_buffer(p_tx, len)` and
any number of whole calls of `spi_transmit_buffer` made from interrupt handlers between
its statements, (1) while the foreground call stands at its check of `g_spi_state`
(line 108) or at its write of `SPI_STATE_TX_BUSY` (line 113) PRIMASK is set and no
interrupt-context call can run, and at the write `g_spi_state` is still the idle value
that the check read; (2) at most one of all these requests is accepted (returns 0): if
the foreground call returned 0 then no interrupt-context call did.  No interrupt step
completes a transfer in such a schedule, so it lies within one idle period of the
bus. -/
theorem C8_check_and_set_indivisible (p_tx : BytePtr) (len : Nat) (c : Cpu)
    (sched : List Sched) (k : Conc)
    (hrun : conc_run p_tx len sched (conc_start c) = some k) :
    ((k.pc = TxPc.at_check_state ∨ k.pc = TxPc.at_set_state) →
      k.cpu.primask = true ∧ ∀ q n, conc_step p_tx len (Sched.isr q n) k = none) ∧
    (k.pc = TxPc.at_set_state → k.cpu.spi.g_spi_state = SPI_STATE_IDLE) ∧
    accepted k ≤ 1 ∧
    (k.pc = TxPc.returned 0 → ∀ r ∈ k.isr_codes, r ≠ 0) := by
  have hk : conc_inv k := conc_run_inv p_tx len sched _ k (conc_inv_start c) hrun
  have hacc : accepted k ≤ 1 := accepted_le_one k hk
  refine ⟨?_, ?_, hacc, ?_⟩
  · intro hpc
    have hm : k.cpu.primask = true :=
      masked_in_critical_section k hk
        (hpc.elim Or.inl (fun h => Or.inr (Or.inr (Or.inl h))))
    refine ⟨hm, fun q n => ?_⟩
    simp only [conc_step, hm, if_true]
  · intro hpc
    obtain ⟨pc, cpu, codes⟩ := k
    simp only at hpc
    subst hpc
    exact hk.2.1
  · intro hpc r hr h0
    subst h0
    have hpos : 0 < List.count (0 : Int) k.isr_codes := List.count_pos_iff.mpr hr
    unfold accepted at hacc
    rw [if_pos hpc] at hacc
    omega

/-- Witness for C8: a two-byte request arrives from an interrupt handler after the
second statement of a foreground one-byte request; the interrupt-context request is
accepted and the foreground request returns -2. -/
theorem C8_check_and_set_indivisible_witness :
    conc_run (some [0xAA]) 1
        [Sched.fg, Sched.fg, Sched.isr (some [0x01, 0x02]) 2, Sched.fg, Sched.fg, Sched.fg]
        (conc_start { primask := false, spi := spi_boot 0 0 }) =
      some { pc := TxPc.returned (-2)
             cpu := { primask := false, spi := tx_started [0x01, 0x02] 2 (spi_boot 0 0) }
             isr_codes := [0] } ∧
    accepted { pc := TxPc.returned (-2)
               cpu := { primask := false, spi := tx_started [0x01, 0x02] 2 (spi_boot 0 0) }
               isr_codes := [0] } ≤ 1 :=
  ⟨by decide,
   (C8_check_and_set_indivisible (some [0xAA]) 1 { primask := false, spi := spi_boot 0 0 }
      [Sched.fg, Sched.fg, Sched.isr (some [0x01, 0x02]) 2, Sched.fg, Sched.fg, Sched.fg]
      { pc := TxPc.returned (-2)
        cpu := { primask := false, spi := tx_started [0x01, 0x02] 2 (spi_boot 0 0) }
        isr_codes := [0] } (by decide)).2.2.1⟩

/-! ## Claims on the ENC28J60 supervisor -/

/-- C9: for every non-null MAC address pointer `m` with (at least) six bytes behind
it, and whatever the driver state was before, `enc28j60_init(m)` returns 0, leaves
`g_enc28j60_state == ENC28J60_STATE_READY`, and the stored `g_mac_address` equals the
six bytes of `m`, byte for byte. -/
theorem C9_init_succeeds (m : List Byte) (s : EncState) (hm : 6 ≤ m.length) :
    ∃ t : EncState, enc28j60_init (some m) s = some (0, t) ∧
      t.g_enc28j60_state = ENC28J60_STATE_READY ∧
      List.ofFn t.g_mac_address = m.take 6 ∧
      (∀ i : Fin 6, m[i.val]? = some (t.g_mac_address i)) := by
  obtain ⟨mac, hloop, hmac⟩ := enc28j60_init_loop m hm s.g_mac_address
  refine ⟨{ g_enc28j60_state := ENC28J60_STATE_READY, g_mac_address := mac }, ?_, rfl, hmac, ?_⟩
  · unfold enc28j60_init
    simp only [hloop]
  · intro i
    have hi : i.val < m.length := by omega
    have h6 : i.val < (List.take 6 m).length := by
      rw [List.length_take]; omega
    have hget : (List.ofFn mac)[i.val]? = (List.take 6 m)[i.val]? := by rw [hmac]
    rw [List.getElem?_take, if_pos i.isLt] at hget
    rw [← hget, List.getElem?_ofFn]
    simp [List.ofFnNthVal]

/-- Witness for C9: the address 54:55:58:10:00:24 of `Core/Src/main.c`, offered to a
driver in the error state. -/
theorem C9_init_succeeds_witness :
    6 ≤ ([0x54, 0x55, 0x58, 0x10, 0x00, 0x24] : List Byte).length ∧
    (enc28j60_init (some [0x54, 0x55, 0x58, 0x10, 0x00, 0x24])
        { enc_boot with g_enc28j60_state := ENC28J60_STATE_ERROR }).map
      (fun r => (r.1, r.2.g_enc28j60_state, List.ofFn r.2.g_mac_address)) =
      some (0, ENC28J60_STATE_READY, [0x54, 0x55, 0x58, 0x10, 0x00, 0x24]) := by
  obtain ⟨t, h1, h2, h3, _⟩ := C9_init_succeeds [0x54, 0x55, 0x58, 0x10, 0x00, 0x24]
    { enc_boot with g_enc28j60_state := ENC28J60_STATE_ERROR } (by decide)
  refine ⟨by decide, ?_⟩
  rw [h1, Option.map_some', h2, h3]
  rfl

/-- C10 (refuted as stated): `enc28j60_init(NULL)` on the freshly booted driver returns
-1 and leaves the state `ENC28J60_STATE_UNINITIALIZED`, not `ENC28J60_STATE_ERROR`; on a
driver that is already ready it returns -1 and leaves the state
`ENC28J60_STATE_READY`. -/
theorem C10_failed_init_not_error :
    enc28j60_init none enc_boot = some (-1, enc_boot) ∧
    enc_boot.g_enc28j60_state = ENC28J60_STATE_UNINITIALIZED ∧
    enc_boot.g_enc28j60_state ≠ ENC28J60_STATE_ERROR ∧
    (enc28j60_init none { enc_boot with g_enc28j60_state := ENC28J60_STATE_READY }).map
      (fun r => (r.1, r.2.g_enc28j60_state)) = some (-1, ENC28J60_STATE_READY) := by
  decide

/-- C10 (amended): `enc28j60_init` fails (returns a non-zero code) exactly when the MAC
address pointer is null; it then returns -1 and leaves the controller state and the
stored MAC address as they were before the call.  Whenever it returns 0 the state after
the call is `ENC28J60_STATE_READY`. -/
theorem C10_failed_init_keeps_state (p_mac_addr : BytePtr) (s : EncState) (r : Int)
    (t : EncState) (h : enc28j60_init p_mac_addr s = some (r, t)) :
    (r ≠ 0 ↔ p_mac_addr = none) ∧
    (r ≠ 0 → r = -1 ∧ t = s) ∧
    (r = 0 → t.g_enc28j60_state = ENC28J60_STATE_READY) := by
  cases p_mac_addr with
  | none =>
    simp only [enc28j60_init, Option.some.injEq, Prod.mk.injEq] at h
    obtain ⟨hr, ht⟩ := h
    subst hr ht
    exact ⟨by decide, fun _ => ⟨rfl, rfl⟩, fun h0 => absurd h0 (by decide)⟩
  | some m =>
    obtain ⟨hr, ht⟩ := enc28j60_init_some m s r t h
    subst hr
    exact ⟨by simp, fun h0 => absurd rfl h0, fun _ => ht⟩

/-- Witness for the amended C10: the null pointer offered to the freshly booted
driver. -/
theorem C10_failed_init_keeps_state_witness :
    enc28j60_init none enc_boot = some (-1, enc_boot) ∧
    ((-1 : Int) = -1 ∧ enc_boot = enc_boot) :=
  ⟨by decide,
   (C10_failed_init_keeps_state none enc_boot (-1) enc_boot (by decide)).2.1 (by decide)⟩

/-- The return code of `enc28j60_send_packet` and the state it leaves, in closed form:
the controller state plays no part. -/
theorem enc28j60_send_packet_eq (p_data : BytePtr) (len : Nat) (s : EncState) :
    enc28j60_send_packet p_data len s =
      (if p_data = none ∨ len = 0 then -1 else 0, s) := by
  unfold enc28j60_send_packet
  by_cases hp : p_data = none
  · simp [hp]
  · by_cases hl : len = 0
    · simp [hp, hl]
    · simp [hp, hl]

/-- C11 (refuted as stated): on the freshly booted driver, whose state is
`ENC28J60_STATE_UNINITIALIZED`, and likewise in `ENC28J60_STATE_TX_BUSY` and in
`ENC28J60_STATE_ERROR`, `enc28j60_send_packet` returns 0 for a one-byte payload. -/
theorem C11_send_accepted_when_not_ready :
    enc_boot.g_enc28j60_state ≠ ENC28J60_STATE_READY ∧
    (enc28j60_send_packet (some [0xAA]) 1 enc_boot).1 = 0 ∧
    (enc28j60_send_packet (some [0xAA]) 1
      { enc_boot with g_enc28j60_state := ENC28J60_STATE_TX_BUSY }).1 = 0 ∧
    (enc28j60_send_packet (some [0xAA]) 1
      { enc_boot with g_enc28j60_state := ENC28J60_STATE_ERROR }).1 = 0 := by
  decide

/-- C11 (amended): `enc28j60_send_packet` does not look at `g_enc28j60_state`: in
every controller state, ready or not, it returns 0 for every non-null payload of
non-zero length, and a non-zero code (namely -1) exactly when the payload pointer is
null or the length is 0. -/
theorem C11_send_ignores_state (p_data : BytePtr) (len : Nat) (s : EncState)
    (hstate : s.g_enc28j60_state ≠ ENC28J60_STATE_READY) :
    (p_data ≠ none ∧ len ≠ 0 → (enc28j60_send_packet p_data len s).1 = 0) ∧
    ((enc28j60_send_packet p_data len s).1 ≠ 0 ↔ (p_data = none ∨ len = 0)) ∧
    (∀ s2 : EncState, (enc28j60_send_packet p_data len s2).1 =
      (enc28j60_send_packet p_data len s).1) := by
  have _ := hstate
  refine ⟨?_, ?_, ?_⟩
  · rintro ⟨hp, hl⟩
    rw [enc28j60_send_packet_eq]
    simp [hp, hl]
  · rw [enc28j60_send_packet_eq]
    by_cases h : p_data = none ∨ len = 0
    · simp [h]
    · simp [h]
  · intro s2
    rw [enc28j60_send_packet_eq, enc28j60_send_packet_eq]

/-- Witness for the amended C11: a one-byte payload offered to the driver in the error
state is accepted. -/
theorem C11_send_ignores_state_witness :
    ({ enc_boot with g_enc28j60_state := ENC28J60_STATE_ERROR } : EncState).g_enc28j60_state ≠
      ENC28J60_STATE_READY ∧
    (enc28j60_send_packet (some [0xAA]) 1
      { enc_boot with g_enc28j60_state := ENC28J60_STATE_ERROR }).1 = 0 :=
  ⟨by decide,
   (C11_send_ignores_state (some [0xAA]) 1
      { enc_boot with g_enc28j60_state := ENC28J60_STATE_ERROR } (by decide)).1
      ⟨by decide, by decide⟩⟩

/-- C12 (refuted as stated): in state `ENC28J60_STATE_READY` the call
`enc28j60_send_packet` on 64 bytes of `0xAA` returns 0 and leaves the state
`ENC28J60_STATE_READY`, not `ENC28J60_STATE_TX_BUSY`. -/
theorem C12_send_leaves_ready :
    (enc28j60_send_packet (some (List.replicate 64 0xAA)) 64
      { enc_boot with g_enc28j60_state := ENC28J60_STATE_READY }).1 = 0 ∧
    (enc28j60_send_packet (some (List.replicate 64 0xAA)) 64
      { enc_boot with g_enc28j60_state := ENC28J60_STATE_READY }).2.g_enc28j60_state =
      ENC28J60_STATE_READY ∧
    (enc28j60_send_packet (some (List.replicate 64 0xAA)) 64
      { enc_boot with g_enc28j60_state := ENC28J60_STATE_READY }).2.g_enc28j60_state ≠
      ENC28J60_STATE_TX_BUSY := by
  decide

/-- C12 (amended): for every non-null payload of length `1 ≤ len`, a call of
`enc28j60_send_packet` in state `ENC28J60_STATE_READY` succeeds (returns 0) and leaves
`g_enc28j60_state == ENC28J60_STATE_READY`; the driver state is not changed at all. -/
theorem C12_send_keeps_state (m : List Byte) (len : Nat) (s : EncState)
    (hready : s.g_enc28j60_state = ENC28J60_STATE_READY) (hlen : 1 ≤ len) :
    (enc28j60_send_packet (some m) len s).1 = 0 ∧
    (enc28j60_send_packet (some m) len s).2.g_enc28j60_state = ENC28J60_STATE_READY ∧
    (enc28j60_send_packet (some m) len s).2 = s := by
  have h0 : len ≠ 0 := by omega
  rw [enc28j60_send_packet_eq]
  simp [h0, hready]

/-- Witness for the amended C12: 64 bytes of `0xAA` offered to a ready driver. -/
theorem C12_send_keeps_state_witness :
    (enc28j60_send_packet (some (List.replicate 64 0xAA)) 64
      { enc_boot with g_enc28j60_state := ENC28J60_STATE_READY }).2.g_enc28j60_state =
      ENC28J60_STATE_READY :=
  (C12_send_keeps_state (List.replicate 64 0xAA) 64
    { enc_boot with g_enc28j60_state := ENC28J60_STATE_READY } rfl (by decide)).2.1

/-- C13 (refuted as stated): for a payload of 1519 bytes, one more than the Ethernet
maximum frame size, and for the largest length 65535, `enc28j60_send_packet` returns
0. -/
theorem C13_oversize_frame_accepted :
    (1518 : Nat) < 1519 ∧
    (enc28j60_send_packet (some (List.replicate 1519 0xAA)) 1519
      { enc_boot with g_enc28j60_state := ENC28J60_STATE_READY }).1 = 0 ∧
    (enc28j60_send_packet (some (List.replicate 65535 0xAA)) 65535
      { enc_boot with g_enc28j60_state := ENC28J60_STATE_READY }).1 = 0 := by
  decide

/-- C13 (amended): `enc28j60_send_packet` enforces no maximum frame size: for every
non-null payload whose length exceeds 1518 bytes (up to 65535) it returns 0, as it
does for every other non-zero length. -/
theorem C13_no_frame_size_limit (m : List Byte) (len : Nat) (s : EncState)
    (hbig : 1518 < len) (h16 : len ≤ 65535) :
    (enc28j60_send_packet (some m) len s).1 = 0 ∧
    (enc28j60_send_packet (some m) len s).2 = s := by
  have h0 : len ≠ 0 := by omega
  rw [enc28j60_send_packet_eq]
  simp [h0]

/-- Witness for the amended C13: a payload of 1519 bytes. -/
theorem C13_no_frame_size_limit_witness :
    (enc28j60_send_packet (some (List.replicate 1519 0xAA)) 1519
      { enc_boot with g_enc28j60_state := ENC28J60_STATE_READY }).1 = 0 :=
  (C13_no_frame_size_limit (List.replicate 1519 0xAA) 1519
    { enc_boot with g_enc28j60_state := ENC28J60_STATE_READY } (by decide) (by decide)).1

/-- C14: `enc28j60_send_packet` returns -1 whenever the payload pointer is null or the
length is 0, in every controller state, and then leaves `g_enc28j60_state` (indeed the
whole driver state) unchanged. -/
theorem C14_send_invalid_argument (p_data : BytePtr) (len : Nat) (s : EncState)
    (harg : p_data = none ∨ len = 0) :
    (enc28j60_send_packet p_data len s).1 = -1 ∧
    (enc28j60_send_packet p_data len s).2.g_enc28j60_state = s.g_enc28j60_state ∧
    (enc28j60_send_packet p_data len s).2 = s := by
  rw [enc28j60_send_packet_eq]
  simp [harg]

/-- Witness for C14: a null payload offered to a ready driver and a zero length offered
to the freshly booted one. -/
theorem C14_send_invalid_argument_witness :
    (enc28j60_send_packet none 64
      { enc_boot with g_enc28j60_state := ENC28J60_STATE_READY }).1 = -1 ∧
    (enc28j60_send_packet (some [0xAA]) 0 enc_boot).1 = -1 :=
  ⟨(C14_send_invalid_argument none 64
      { enc_boot with g_enc28j60_state := ENC28J60_STATE_READY } (Or.inl rfl)).1,
   (C14_send_invalid_argument (some [0xAA]) 0 enc_boot (Or.inr rfl)).1⟩

/-- Register accesses leave the driver state as it is. -/
theorem enc_reg_accesses_eq (accesses : List EncRegAccess) :
    ∀ s : EncState, enc_reg_accesses accesses s = s := by
  induction accesses with
  | nil => intro s; rfl
  | cons a rest ih =>
    intro s
    rw [enc_reg_accesses, ih]
    cases a <;> rfl

/-- C15 (refuted as stated): after `enc28j60_write_register(0x1F, 0x04)` the call
`enc28j60_read_register(0x1F)` returns `0x00`, not `0x04`, directly and also after a
write to another register. -/
theorem C15_round_trip_fails :
    (enc28j60_read_register 0x1F (enc28j60_write_register 0x1F 0x04 enc_boot)).1 = 0 ∧
    (enc28j60_read_register 0x1F (enc28j60_write_register 0x1F 0x04 enc_boot)).1 ≠ 0x04 ∧
    (enc28j60_read_register 0x1F
      (enc_reg_accesses [EncRegAccess.write 0x02 0x55, EncRegAccess.read 0x02]
        (enc28j60_write_register 0x1F 0x04 enc_boot))).1 ≠ 0x04 := by
  decide

/-- C15 (amended): for every register address `r` and every byte value `V`,
`enc28j60_write_register(r, V)` stores nothing and `enc28j60_read_register(r)`,
directly afterwards or after any accesses to other registers, returns `0x00`; so the
round trip returns `V` exactly when `V = 0`. -/
theorem C15_read_returns_zero (r V : Nat) (accesses : List EncRegAccess) (s : EncState)
    (hV : V < 256) :
    (enc28j60_read_register r (enc_reg_accesses accesses (enc28j60_write_register r V s))).1 = 0 ∧
    ((enc28j60_read_register r
        (enc_reg_accesses accesses (enc28j60_write_register r V s))).1 = V ↔ V = 0) ∧
    enc_reg_accesses accesses (enc28j60_write_register r V s) = s := by
  have _ := hV
  refine ⟨rfl, ?_, ?_⟩
  · constructor
    · intro h; exact h.symm
    · intro h; rw [h]; rfl
  · rw [enc_reg_accesses_eq]; rfl

/-- Witness for the amended C15: the value `0x04` written to register `0x1F` and read
back after two accesses to register `0x02`. -/
theorem C15_read_returns_zero_witness :
    (enc28j60_read_register 0x1F
      (enc_reg_accesses [EncRegAccess.write 0x02 0x55, EncRegAccess.read 0x02]
        (enc28j60_write_register 0x1F 0x04 enc_boot))).1 = 0 :=
  (C15_read_returns_zero 0x1F 0x04 [EncRegAccess.write 0x02 0x55, EncRegAccess.read 0x02]
    enc_boot (by decide)).1

/-! ## Claims on the RCC driver -/

/-- The wait loop entered with `timeout + d = RCC_TIMEOUT_COUNT` leaves
`timeout ≥ RCC_TIMEOUT_COUNT` exactly when its next `d` reads of `RCC_CR` all show
HSIRDY clear. -/
theorem rcc_wait_hsirdy_timeout (cr_reads : Nat → Nat) :
    ∀ (d polls timeout : Nat), timeout + d = RCC_TIMEOUT_COUNT →
      (rcc_wait_hsirdy cr_reads polls timeout ≥ RCC_TIMEOUT_COUNT ↔
        ∀ i, i < d → hsirdy_clear (cr_reads (polls + i))) := by
  intro d
  induction d with
  | zero =>
    intro polls timeout hd
    have hlt : ¬ (hsirdy_clear (cr_reads polls) ∧ timeout < RCC_TIMEOUT_COUNT) := by
      rintro ⟨_, h⟩
      omega
    rw [rcc_wait_hsirdy, if_neg hlt]
    constructor
    · intro _ i hi
      omega
    · intro _
      omega
  | succ d ih =>
    intro polls timeout hd
    have hT : RCC_TIMEOUT_COUNT = 100000 := rfl
    have hlt : timeout < RCC_TIMEOUT_COUNT := by omega
    by_cases hc : hsirdy_clear (cr_reads polls)
    · have hmod : (timeout + 1) % 2 ^ 32 = timeout + 1 := Nat.mod_eq_of_lt (by omega)
      rw [rcc_wait_hsirdy, if_pos ⟨hc, hlt⟩, hmod, ih (polls + 1) (timeout + 1) (by omega)]
      constructor
      · intro h i hi
        cases i with
        | zero => exact hc
        | succ j =>
          have := h j (by omega)
          rwa [Nat.add_assoc, Nat.add_comm 1 j] at this
      · intro h i hi
        have := h (i + 1) (by omega)
        rwa [Nat.add_assoc, Nat.add_comm 1 i]
    · have hneg : ¬ (hsirdy_clear (cr_reads polls) ∧ timeout < RCC_TIMEOUT_COUNT) :=
        fun h => hc h.1
      rw [rcc_wait_hsirdy, if_neg hneg]
      constructor
      · intro h
        omega
      · intro h
        exact absurd (h 0 (by omega)) hc

/-- C16 (the code at the failing input): on the freshly booted driver, with HSIRDY set
at the first read of `RCC_CR`, `rcc_init` returns 0 and `rcc_get_system_clock` then
returns 16000000, not 64000000; a second `rcc_init` returns 0 and leaves that value. -/
theorem C16_clock_is_16_mhz :
    (rcc_init (fun _ => 0x400) (rcc_boot 0 0 0)).1 = 0 ∧
    rcc_get_system_clock (rcc_init (fun _ => 0x400) (rcc_boot 0 0 0)).2 = 16000000 ∧
    rcc_get_system_clock (rcc_init (fun _ => 0x400) (rcc_boot 0 0 0)).2 ≠ 64000000 ∧
    (rcc_init (fun _ => 0x400) (rcc_init (fun _ => 0x400) (rcc_boot 0 0 0)).2).1 = 0 ∧
    rcc_get_system_clock
      (rcc_init (fun _ => 0x400) (rcc_init (fun _ => 0x400) (rcc_boot 0 0 0)).2).2 =
      16000000 := by
  have hready : ¬ (hsirdy_clear ((fun _ : Nat => 0x400) 0) ∧ 0 < RCC_TIMEOUT_COUNT) := by
    decide
  have hwait : rcc_wait_hsirdy (fun _ => 0x400) 0 0 = 0 := by
    rw [rcc_wait_hsirdy, if_neg hready]
  have hnot : ¬ (0 ≥ RCC_TIMEOUT_COUNT) := by decide
  have hinit : rcc_init (fun _ => 0x400) (rcc_boot 0 0 0) =
      (0, { RCC_CR := 0x100, RCC_IOPENR := 0x7, RCC_APBENR2 := 0x1000,
            g_rcc_initialized := true, g_system_clock_hz := 16000000 }) := by
    unfold rcc_init
    simp only [rcc_boot, Bool.false_eq_true, if_false, hwait, hnot]
    decide
  rw [hinit]
  refine ⟨rfl, rfl, by decide, rfl, rfl⟩

/-- C17: on a driver that is not yet initialised, for every sequence of values read
from `RCC_CR`, `rcc_init` (a total function: the wait loop ends after at most
`RCC_TIMEOUT_COUNT` increments) returns -1 exactly when the first
`RCC_TIMEOUT_COUNT = 100000` reads all show HSIRDY clear, and 0 otherwise; when it
returns -1 the registers `RCC_IOPENR` and `RCC_APBENR2` are as before, so no GPIO or
SPI1 clock-enable bit is written, and `g_rcc_initialized` stays false. -/
theorem C17_rcc_init_timeout (cr_reads : Nat → Nat) (s : RccState)
    (hnew : s.g_rcc_initialized = false) :
    ((rcc_init cr_reads s).1 = -1 ↔
      ∀ i, i < RCC_TIMEOUT_COUNT → hsirdy_clear (cr_reads i)) ∧
    ((rcc_init cr_reads s).1 = 0 ↔
      ¬ ∀ i, i < RCC_TIMEOUT_COUNT → hsirdy_clear (cr_reads i)) ∧
    ((rcc_init cr_reads s).1 = -1 →
      (rcc_init cr_reads s).2.RCC_IOPENR = s.RCC_IOPENR ∧
      (rcc_init cr_reads s).2.RCC_APBENR2 = s.RCC_APBENR2 ∧
      (rcc_init cr_reads s).2.g_rcc_initialized = false ∧
      (rcc_init cr_reads s).2.g_system_clock_hz = s.g_system_clock_hz) := by
  have hspec := rcc_wait_hsirdy_timeout cr_reads RCC_TIMEOUT_COUNT 0 0 (Nat.zero_add _)
  simp only [Nat.zero_add] at hspec
  by_cases hto : rcc_wait_hsirdy cr_reads 0 0 ≥ RCC_TIMEOUT_COUNT
  · have hall := hspec.mp hto
    have hinit : rcc_init cr_reads s =
        (-1, { s with RCC_CR := s.RCC_CR ||| (1 <<< RCC_CR_HSION_BIT) }) := by
      unfold rcc_init
      simp only [hnew, Bool.false_eq_true, if_false, hto, if_true]
    rw [hinit]
    refine ⟨⟨fun _ => hall, fun _ => rfl⟩, ⟨fun h => ?_, fun h => absurd hall h⟩,
      fun _ => ⟨rfl, rfl, hnew, rfl⟩⟩
    simp at h
  · have hnall : ¬ ∀ i, i < RCC_TIMEOUT_COUNT → hsirdy_clear (cr_reads i) :=
      fun h => hto (hspec.mpr h)
    have hret : (rcc_init cr_reads s).1 = 0 := by
      unfold rcc_init
      simp only [hnew, Bool.false_eq_true, if_false, hto]
    rw [hret]
    refine ⟨⟨fun h => absurd h (by decide), fun h => absurd h hnall⟩,
      ⟨fun _ => hnall, fun _ => rfl⟩, fun h => absurd h (by decide)⟩

/-- Witness for C17: HSIRDY never set, on the freshly booted driver. -/
theorem C17_rcc_init_timeout_witness :
    (rcc_boot 0 0 0).g_rcc_initialized = false ∧
    (rcc_init (fun _ => 0) (rcc_boot 0 0 0)).1 = -1 :=
  ⟨rfl, (C17_rcc_init_timeout (fun _ => 0) (rcc_boot 0 0 0) rfl).1.mpr (fun _ _ => by decide)⟩

/-! ## Further claims on the SPI bus engine -/

/-- After an accepted request `(m, n)` the first `k ≤ n` steps are sending steps. -/
theorem spi_process_tx_iter_sent (m : List Byte) (n k : Nat) (s : SpiState)
    (hk : k ≤ n) (hm : n ≤ m.length) (h2 : n ≤ 65535) :
    spi_process_tx_iter k (tx_started m n s) = some (tx_sent m n k s) := by
  rw [spi_process_tx_iter_send m k (tx_started m n s) rfl
    (by simp only [tx_started]; omega) hm h2]
  simp [tx_started, tx_sent]

/-- The sending step number `k + 1`. -/
theorem spi_process_tx_sent (m : List Byte) (n k : Nat) (s : SpiState)
    (hk : k < n) (hm : n ≤ m.length) (h2 : n ≤ 65535) :
    spi_process_tx (tx_sent m n k s) = some (tx_sent m n (k + 1) s) ∧
    ∃ b, m[k]? = some b ∧
      (tx_sent m n (k + 1) s).SPI1_DR_log = (tx_sent m n k s).SPI1_DR_log ++ [b.val] := by
  have hlt : k < m.length := by omega
  have hstep := spi_process_tx_send (tx_sent m n k s) m rfl hk hlt h2
  have hlog : (tx_sent m n (k + 1) s).SPI1_DR_log =
      (tx_sent m n k s).SPI1_DR_log ++ [(m[k]).val] := by
    show s.SPI1_DR_log ++ (m.take (k + 1)).map Fin.val =
      (s.SPI1_DR_log ++ (m.take k).map Fin.val) ++ [(m[k]).val]
    rw [List.take_succ, List.getElem?_eq_getElem hlt]
    simp only [Option.toList, List.map_append, List.map_cons, List.map_nil, List.append_assoc]
  refine ⟨?_, m[k], List.getElem?_eq_getElem hlt, hlog⟩
  rw [hstep]
  simp only [tx_sent, tx_started] at hlog ⊢
  simp only [hlog]

/-- Clearing TXEIE clears bit 7 of a 32-bit register value and keeps its other bits. -/
theorem testBit_clear_txeie (x i : Nat) :
    (x &&& not32 (1 <<< SPI_CR2_TXEIE_BIT)).testBit i =
      (x.testBit i && decide (i < 32 ∧ i ≠ SPI_CR2_TXEIE_BIT)) := by
  have hc : not32 (1 <<< SPI_CR2_TXEIE_BIT) = 2 ^ 32 - 1 - 2 ^ 7 := by decide
  rw [Nat.testBit_and]
  congr 1
  by_cases hi : i < 32
  · have hcase : (not32 (1 <<< SPI_CR2_TXEIE_BIT)).testBit i = decide (i ≠ SPI_CR2_TXEIE_BIT) := by
      interval_cases i <;> decide
    rw [hcase]
    simp [hi]
  · have hbig : not32 (1 <<< SPI_CR2_TXEIE_BIT) < 2 ^ i := by
      rw [hc]
      calc 2 ^ 32 - 1 - 2 ^ 7 < 2 ^ 32 := by decide
        _ ≤ 2 ^ i := Nat.pow_le_pow_right (by decide) (by omega)
    rw [Nat.testBit_lt_two_pow hbig]
    simp [hi]

/-- While sending, the TXEIE bit set by the accepted request is still set. -/
theorem txeie_set_tx_sent (m : List Byte) (n k : Nat) (s : SpiState) :
    txeie_set (tx_sent m n k s).SPI1_CR2 := by
  simp only [tx_sent, tx_started]
  exact txeie_set_or _

/-- C18: for every accepted transmit of length `n`, `1 ≤ n ≤ 65535`, from a buffer of
at least `n` bytes: each of the first `n` interrupt steps (a `spi_process_tx` call,
which is what `SPI1_IRQHandler` does when TXE is set) sends one byte, the byte under
the cursor, and leaves `g_spi_state == SPI_STATE_TX_BUSY`; step `n + 1` sends no byte,
clears the TXEIE bit of `SPI1_CR2` (keeping the other bits), sets the buffer reference
to `NULL` and sets `g_spi_state = SPI_STATE_IDLE`, after which a following
`spi_transmit_buffer` with valid arguments is accepted again. -/
theorem C18_n_sends_then_completion (m : List Byte) (n : Nat) (s : SpiState)
    (hidle : s.g_spi_state = SPI_STATE_IDLE)
    (h1 : 1 ≤ n) (h2 : n ≤ 65535) (hm : n ≤ m.length) :
    (spi_transmit_buffer (some m) n s).1 = 0 ∧
    (∀ k, k < n → ∃ t u b,
      spi_process_tx_iter k (spi_transmit_buffer (some m) n s).2 = some t ∧
      spi_process_tx t = some u ∧
      (∀ sr, txe_set sr → SPI1_IRQHandler sr t = some u) ∧
      m[k]? = some b ∧
      u.SPI1_DR_log = t.SPI1_DR_log ++ [b.val] ∧
      u.g_spi_tx_index = k + 1 ∧
      u.g_spi_state = SPI_STATE_TX_BUSY) ∧
    (∃ t u,
      spi_process_tx_iter n (spi_transmit_buffer (some m) n s).2 = some t ∧
      spi_process_tx t = some u ∧
      (∀ sr, txe_set sr → SPI1_IRQHandler sr t = some u) ∧
      spi_process_tx_iter (n + 1) (spi_transmit_buffer (some m) n s).2 = some u ∧
      u.SPI1_DR_log = t.SPI1_DR_log ∧
      u.SPI1_DR_log = s.SPI1_DR_log ++ (m.take n).map Fin.val ∧
      u.SPI1_CR2.testBit SPI_CR2_TXEIE_BIT = false ∧
      (∀ i, i < 32 → i ≠ SPI_CR2_TXEIE_BIT → u.SPI1_CR2.testBit i = t.SPI1_CR2.testBit i) ∧
      u.g_p_spi_tx_buffer = none ∧
      u.g_spi_state = SPI_STATE_IDLE ∧
      (∀ (m2 : List Byte) (len2 : Nat), 1 ≤ len2 →
        (spi_transmit_buffer (some m2) len2 u).1 = 0)) := by
  rw [spi_transmit_buffer_accept m n s hidle h1]
  refine ⟨rfl, ?_, ?_⟩
  · intro k hk
    obtain ⟨hstep, b, hb, hlog⟩ := spi_process_tx_sent m n k s hk hm h2
    refine ⟨tx_sent m n k s, tx_sent m n (k + 1) s, b,
      spi_process_tx_iter_sent m n k s (by omega) hm h2, hstep, ?_, hb, hlog, rfl, rfl⟩
    intro sr hsr
    rw [SPI1_IRQHandler_eq_process sr _ hsr (txeie_set_tx_sent m n k s), hstep]
  · have hdone : spi_process_tx (tx_sent m n n s) = some (spi_tx_complete (tx_sent m n n s)) :=
      spi_process_tx_done _ (by simp [tx_sent, tx_started])
    have hiter := spi_process_tx_iter_sent m n n s (le_refl _) hm h2
    refine ⟨tx_sent m n n s, spi_tx_complete (tx_sent m n n s), hiter, hdone, ?_, ?_, rfl, rfl,
      ?_, ?_, rfl, rfl, ?_⟩
    · intro sr hsr
      rw [SPI1_IRQHandler_eq_process sr _ hsr (txeie_set_tx_sent m n n s), hdone]
    · rw [spi_process_tx_iter_add, hiter, Option.some_bind, spi_process_tx_iter, hdone,
        Option.some_bind, spi_process_tx_iter]
    · simp only [spi_tx_complete]
      rw [testBit_clear_txeie]
      simp
    · intro i hi hne
      simp only [spi_tx_complete]
      rw [testBit_clear_txeie]
      simp [hi, hne]
    · intro m2 len2 hlen2
      rw [spi_transmit_buffer_accept m2 len2 _ rfl hlen2]

/-- Witness for C18: the request `AA 55 01` of length 3 from the boot state; four
steps bring the driver back to idle with the three bytes on the wire. -/
theorem C18_n_sends_then_completion_witness :
    (spi_process_tx_iter 4 (spi_transmit_buffer (some [0xAA, 0x55, 0x01]) 3 (spi_boot 0 0)).2).map
      (fun u => (u.SPI1_DR_log, u.g_spi_state, u.g_p_spi_tx_buffer)) =
      some ([0xAA, 0x55, 0x01], SPI_STATE_IDLE, none) := by
  obtain ⟨_, _, t, u, _, _, _, h4, _, hlog, _, _, hbuf, hst, _⟩ :=
    C18_n_sends_then_completion [0xAA, 0x55, 0x01] 3 (spi_boot 0 0) rfl
      (by decide) (by decide) (by decide)
  rw [h4, Option.map_some', hlog, hst, hbuf]
  rfl

/-- The state `spi_init` leaves on the booted driver satisfies the cursor invariant. -/
theorem cursor_inv_init (prescaler cr1 cr2 : Nat) :
    cursor_inv (spi_init prescaler (spi_boot cr1 cr2)).2 := by
  refine ⟨Nat.le_refl _, Nat.zero_le _, ?_⟩
  intro m h
  cases h

/-- A request with a `uint16_t` length and a buffer of at least that many bytes keeps
the caller's side. -/
theorem caller_ok_transmit (m : List Byte) (len : Nat) (h16 : len ≤ 65535)
    (hlen : len ≤ m.length) : caller_ok (SpiEvent.transmit (some m) len) := by
  refine ⟨h16, ?_⟩
  intro m2 h
  cases h
  exact hlen

/-- With the cursor invariant, `spi_process_tx` reads inside the caller's buffer, does
not wrap the cursor, and keeps the invariant. -/
theorem spi_process_tx_cursor_inv (s : SpiState) (hs : cursor_inv s) :
    ∃ t, spi_process_tx s = some t ∧ cursor_inv t := by
  obtain ⟨hle, h16, hbuf⟩ := hs
  by_cases hi : s.g_spi_tx_index < s.g_spi_tx_length
  · cases hb : s.g_p_spi_tx_buffer with
    | none =>
      refine ⟨spi_tx_complete s, ?_, hle, h16, ?_⟩
      · unfold spi_process_tx
        rw [hb]
      · intro m h
        cases h
    | some m =>
      have hlen := hbuf m hb
      have hlt : s.g_spi_tx_index < m.length := by omega
      refine ⟨_, spi_process_tx_send s m hb hi hlt h16, ?_, h16, ?_⟩
      · show s.g_spi_tx_index + 1 ≤ s.g_spi_tx_length
        omega
      · exact hbuf
  · refine ⟨spi_tx_complete s, spi_process_tx_done s hi, hle, h16, ?_⟩
    intro m h
    cases h

/-- Every event from a caller that keeps its side takes a state with the cursor
invariant to a state with the cursor invariant, without any read outside a buffer. -/
theorem spi_step_cursor_inv (e : SpiEvent) (s : SpiState) (he : caller_ok e)
    (hs : cursor_inv s) : ∃ t, spi_step e s = some t ∧ cursor_inv t := by
  cases e with
  | transmit p_tx len =>
    refine ⟨_, rfl, ?_⟩
    obtain ⟨h16, hbuf⟩ := he
    unfold spi_transmit_buffer
    split_ifs with h1 h2 h3
    · exact hs
    · exact hs
    · exact hs
    · exact ⟨Nat.zero_le _, h16, hbuf⟩
  | irq sr =>
    show ∃ t, SPI1_IRQHandler sr s = some t ∧ cursor_inv t
    unfold SPI1_IRQHandler
    split_ifs
    · exact spi_process_tx_cursor_inv s hs
    · exact ⟨s, rfl, hs⟩
  | process_tx => exact spi_process_tx_cursor_inv s hs

theorem spi_run_cursor_inv (evs : List SpiEvent) :
    ∀ s : SpiState, (∀ e ∈ evs, caller_ok e) → cursor_inv s →
      ∃ t, spi_run evs s = some t ∧ cursor_inv t := by
  induction evs with
  | nil =>
    intro s _ hs
    exact ⟨s, rfl, hs⟩
  | cons e rest ih =>
    intro s hok hs
    obtain ⟨u, hu, hinv⟩ := spi_step_cursor_inv e s (hok e (List.mem_cons_self _ _)) hs
    obtain ⟨t, ht, htinv⟩ := ih u (fun x hx => hok x (List.mem_cons_of_mem _ hx)) hinv
    refine ⟨t, ?_, htinv⟩
    rw [spi_run, hu, Option.some_bind, ht]

/-- C19: start from the booted driver after `spi_init` and run any sequence of
`spi_transmit_buffer` calls (each with a `uint16_t` length and, when the pointer is not
null, a buffer of at least `len` bytes), `SPI1_IRQHandler` runs and `spi_process_tx`
steps.  The run is defined (no step reads outside a buffer), and in the state `s` it
reaches `g_spi_tx_index ≤ g_spi_tx_length ≤ 65535`; whenever `spi_process_tx` would
read `buffer[g_spi_tx_index]` in `s` (buffer not null and cursor below the length) the
cursor is inside the caller's buffer, the 16-bit increment does not wrap, and the step
leaves the cursor at `g_spi_tx_index + 1 ≤ g_spi_tx_length`. -/
theorem C19_cursor_in_bounds (prescaler cr1 cr2 : Nat) (evs : List SpiEvent)
    (hok : ∀ e ∈ evs, caller_ok e) :
    ∃ s, spi_run evs (spi_init prescaler (spi_boot cr1 cr2)).2 = some s ∧
      s.g_spi_tx_index ≤ s.g_spi_tx_length ∧
      s.g_spi_tx_length ≤ 65535 ∧
      (∃ t, spi_process_tx s = some t) ∧
      (∀ m, s.g_p_spi_tx_buffer = some m → s.g_spi_tx_index < s.g_spi_tx_length →
        s.g_spi_tx_index < m.length ∧
        (s.g_spi_tx_index + 1) % 2 ^ 16 = s.g_spi_tx_index + 1 ∧
        ∃ t, spi_process_tx s = some t ∧
          t.g_spi_tx_index = s.g_spi_tx_index + 1 ∧
          t.g_spi_tx_index ≤ t.g_spi_tx_length) := by
  obtain ⟨s, hrun, hinv⟩ := spi_run_cursor_inv evs _ hok (cursor_inv_init prescaler cr1 cr2)
  obtain ⟨hle, h16, hbuf⟩ := hinv
  refine ⟨s, hrun, hle, h16, ?_, ?_⟩
  · obtain ⟨t, ht, _⟩ := spi_process_tx_cursor_inv s ⟨hle, h16, hbuf⟩
    exact ⟨t, ht⟩
  · intro m hb hi
    have hlen := hbuf m hb
    have hlt : s.g_spi_tx_index < m.length := by omega
    refine ⟨hlt, Nat.mod_eq_of_lt (by omega), _, spi_process_tx_send s m hb hi hlt h16, rfl, ?_⟩
    show s.g_spi_tx_index + 1 ≤ s.g_spi_tx_length
    omega

/-- Witness for C19: a two-byte request, one interrupt, and a rejected second request;
the cursor stands at 1 of 2. -/
theorem C19_cursor_in_bounds_witness :
    (spi_run [SpiEvent.transmit (some [0xAA, 0x55]) 2, SpiEvent.irq 2,
        SpiEvent.transmit (some [0x01]) 1] (spi_init 1 (spi_boot 0 0)).2).map
      (fun s => (s.g_spi_tx_index, s.g_spi_tx_length)) = some (1, 2) ∧
    (1 : Nat) ≤ 2 := by
  obtain ⟨s, hrun, hle, _⟩ := C19_cursor_in_bounds 1 0 0
    [SpiEvent.transmit (some [0xAA, 0x55]) 2, SpiEvent.irq 2, SpiEvent.transmit (some [0x01]) 1]
    (by
      intro e he
      simp only [List.mem_cons, List.mem_singleton, List.not_mem_nil, or_false] at he
      rcases he with rfl | rfl | rfl
      · exact caller_ok_transmit _ _ (by decide) (by decide)
      · exact trivial
      · exact caller_ok_transmit _ _ (by decide) (by decide))
  have hval : (spi_run [SpiEvent.transmit (some [0xAA, 0x55]) 2, SpiEvent.irq 2,
        SpiEvent.transmit (some [0x01]) 1] (spi_init 1 (spi_boot 0 0)).2).map
      (fun s => (s.g_spi_tx_index, s.g_spi_tx_length)) = some (1, 2) := by decide
  refine ⟨hval, ?_⟩
  rw [hrun, Option.map_some', Option.some.injEq, Prod.mk.injEq] at hval
  rw [hval.1, hval.2] at hle
  exact hle

/-- After the completing step the TXEIE bit is clear. -/
theorem not_txeie_set_clear (cr2 : Nat) :
    ¬ txeie_set (cr2 &&& not32 (1 <<< SPI_CR2_TXEIE_BIT)) := by
  have h0 : not32 (1 <<< SPI_CR2_TXEIE_BIT) &&& (1 <<< SPI_CR2_TXEIE_BIT) = 0 := by decide
  unfold txeie_set
  rw [Nat.and_assoc, h0, Nat.and_zero]
  exact fun h => h rfl

/-- The state `spi_init` leaves satisfies the TXEIE predicate: idle, TXEIE clear. -/
theorem txeie_inv_init (prescaler : Nat) (s : SpiState) :
    txeie_inv (spi_init prescaler s).2 := by
  have hst : (spi_init prescaler s).2.g_spi_state = SPI_STATE_IDLE := rfl
  have hcr : ¬ txeie_set (spi_init prescaler s).2.SPI1_CR2 := by
    show ¬ txeie_set ((0 ||| (0x7 <<< SPI_CR2_DS_BIT)) ||| (1 <<< SPI_CR2_FRXTH_BIT))
    decide
  unfold txeie_inv
  rw [hst]
  exact ⟨fun h => absurd h (by decide), fun h => absurd h hcr⟩

/-- A call of `spi_transmit_buffer` keeps the TXEIE predicate. -/
theorem txeie_inv_transmit (p_tx : BytePtr) (len : Nat) (s : SpiState) (hs : txeie_inv s) :
    txeie_inv (spi_transmit_buffer p_tx len s).2 := by
  unfold spi_transmit_buffer
  split_ifs with h1 h2 h3
  · exact hs
  · exact hs
  · exact hs
  · exact ⟨fun _ => txeie_set_or _, fun _ => rfl⟩

/-- A `spi_process_tx` step keeps the TXEIE predicate. -/
theorem txeie_inv_process_tx (s t : SpiState) (hs : txeie_inv s)
    (h : spi_process_tx s = some t) : txeie_inv t := by
  have hdone : txeie_inv (spi_tx_complete s) := by
    unfold txeie_inv
    have hne : SPI_STATE_IDLE ≠ SPI_STATE_TX_BUSY := by decide
    exact ⟨fun h => absurd h hne, fun h => absurd h (not_txeie_set_clear _)⟩
  unfold spi_process_tx at h
  split at h
  · cases h
    exact hdone
  · split at h
    · split at h
      · cases h
      · cases h
        exact hs
    · cases h
      exact hdone

/-- An interrupt keeps the TXEIE predicate. -/
theorem txeie_inv_irq (sr : Nat) (s t : SpiState) (hs : txeie_inv s)
    (h : SPI1_IRQHandler sr s = some t) : txeie_inv t := by
  unfold SPI1_IRQHandler at h
  split at h
  · exact txeie_inv_process_tx s t hs h
  · cases h
    exact hs

/-- C20: the predicate `g_spi_state == SPI_STATE_TX_BUSY` if and only if the TXEIE bit
of `SPI1_CR2` is set holds after `spi_init` (from any state), and from any state `s`
in which it holds it still holds after every call of `spi_transmit_buffer` and after
every run of `SPI1_IRQHandler`; consequently, when `s` is idle, a run of
`SPI1_IRQHandler` returns the state `s` itself: no driver state changes and nothing is
written to the data register. -/
theorem C20_txeie_iff_tx_busy (s : SpiState) (hinv : txeie_inv s) :
    (∀ (prescaler : Nat) (s0 : SpiState), txeie_inv (spi_init prescaler s0).2) ∧
    (∀ (p_tx : BytePtr) (len : Nat), txeie_inv (spi_transmit_buffer p_tx len s).2) ∧
    (∀ (sr : Nat) (t : SpiState), SPI1_IRQHandler sr s = some t → txeie_inv t) ∧
    (s.g_spi_state = SPI_STATE_IDLE →
      ∀ sr : Nat, SPI1_IRQHandler sr s = some s ∧
        (∀ t, SPI1_IRQHandler sr s = some t → t.SPI1_DR_log = s.SPI1_DR_log)) := by
  refine ⟨txeie_inv_init, fun p_tx len => txeie_inv_transmit p_tx len s hinv,
    fun sr t h => txeie_inv_irq sr s t hinv h, ?_⟩
  intro hidle sr
  have hclear : ¬ txeie_set s.SPI1_CR2 := by
    intro h
    have hbusy := hinv.mpr h
    rw [hidle] at hbusy
    exact absurd hbusy (by decide)
  have hsame : SPI1_IRQHandler sr s = some s := by
    unfold SPI1_IRQHandler
    rw [if_neg (fun h => hclear h.2)]
  refine ⟨hsame, ?_⟩
  intro t ht
  rw [hsame] at ht
  cases ht
  rfl

/-- Witness for C20: the state `spi_init` leaves on the booted driver, and an
interrupt with TXE set arriving there. -/
theorem C20_txeie_iff_tx_busy_witness :
    txeie_inv (spi_init 1 (spi_boot 0 0)).2 ∧
    SPI1_IRQHandler 2 (spi_init 1 (spi_boot 0 0)).2 = some (spi_init 1 (spi_boot 0 0)).2 ∧
    txeie_inv (spi_transmit_buffer (some [0xAA]) 1 (spi_init 1 (spi_boot 0 0)).2).2 :=
  ⟨by decide,
   ((C20_txeie_iff_tx_busy (spi_init 1 (spi_boot 0 0)).2 (by decide)).2.2.2 rfl 2).1,
   (C20_txeie_iff_tx_busy (spi_init 1 (spi_boot 0 0)).2 (by decide)).2.1 (some [0xAA]) 1⟩

/-! ## Claims on the panic printer -/

/-- A nibble is below 16. -/
theorem nibble_lt (val i : Nat) : (val >>> (i * 4)) &&& 0xF < 16 :=
  Nat.lt_of_le_of_lt Nat.and_le_right (by decide)

/-- None of the sixteen digit characters of `hex` is the terminator. -/
theorem hex_get_ne_nul :
    ∀ d : Fin 16, hex.get ⟨d.val, Nat.lt_trans d.isLt (by decide)⟩ ≠ NUL := by
  decide

/-- Reading a digit character of `hex` back gives its index. -/
theorem hex_digit_value_get :
    ∀ d : Fin 16, hex_digit_value (hex.get ⟨d.val, Nat.lt_trans d.isLt (by decide)⟩) = d.val := by
  decide

/-- The sixteen digit characters of `hex` are the characters `0` to `9` and `A` to
`F`. -/
theorem hex_get_mem :
    ∀ d : Fin 16, hex.get ⟨d.val, Nat.lt_trans d.isLt (by decide)⟩ ∈
      ['0', '1', '2', '3', '4', '5', '6', '7', '8', '9', 'A', 'B', 'C', 'D', 'E', 'F'] := by
  decide

theorem hex_nibble_ne_nul (val i : Nat) : hex_nibble val i ≠ NUL :=
  hex_get_ne_nul ⟨(val >>> (i * 4)) &&& 0xF, nibble_lt val i⟩

theorem hex_digit_value_nibble (val i : Nat) :
    hex_digit_value (hex_nibble val i) = (val >>> (i * 4)) &&& 0xF :=
  hex_digit_value_get ⟨(val >>> (i * 4)) &&& 0xF, nibble_lt val i⟩

theorem hex_nibble_mem (val i : Nat) :
    hex_nibble val i ∈
      ['0', '1', '2', '3', '4', '5', '6', '7', '8', '9', 'A', 'B', 'C', 'D', 'E', 'F'] :=
  hex_get_mem ⟨(val >>> (i * 4)) &&& 0xF, nibble_lt val i⟩

/-- The array `buf` when `UART_Panic_Print` is called: `0`, `x`, the eight digit
characters from nibble 7 down to nibble 0, and the terminator. -/
theorem UART_Panic_Print_Hex_buf_eq (val : Nat) (buf0 : Fin 11 → Char) :
    List.ofFn (UART_Panic_Print_Hex_buf val buf0) =
      ['0', 'x', hex_nibble val 7, hex_nibble val 6, hex_nibble val 5, hex_nibble val 4,
        hex_nibble val 3, hex_nibble val 2, hex_nibble val 1, hex_nibble val 0, NUL] := by
  have hr : List.finRange 8 = [0, 1, 2, 3, 4, 5, 6, 7] := by decide
  unfold UART_Panic_Print_Hex_buf
  simp only [hr, List.foldl, UART_Panic_Print_Hex_body]
  rfl

/-- The characters `UART_Panic_Print_Hex` sends, in closed form. -/
theorem UART_Panic_Print_Hex_eq (val : Nat) (buf0 : Fin 11 → Char) :
    UART_Panic_Print_Hex val buf0 =
      some ['0', 'x', hex_nibble val 7, hex_nibble val 6, hex_nibble val 5, hex_nibble val 4,
        hex_nibble val 3, hex_nibble val 2, hex_nibble val 1, hex_nibble val 0] := by
  have h0 : ('0' : Char) ≠ NUL := by decide
  have hx : ('x' : Char) ≠ NUL := by decide
  unfold UART_Panic_Print_Hex
  rw [UART_Panic_Print_Hex_buf_eq]
  simp only [UART_Panic_Print, h0, hx, hex_nibble_ne_nul, if_false, if_true, Option.map_some']

/-- Eight nibbles of a 32-bit value, most significant first, read in base 16, give the
value back. -/
theorem nibbles_read_back (val : Nat) (hval : val < 2 ^ 32) :
    ((((((((0 * 16 + ((val >>> (7 * 4)) &&& 0xF)) * 16 + ((val >>> (6 * 4)) &&& 0xF)) * 16 +
      ((val >>> (5 * 4)) &&& 0xF)) * 16 + ((val >>> (4 * 4)) &&& 0xF)) * 16 +
      ((val >>> (3 * 4)) &&& 0xF)) * 16 + ((val >>> (2 * 4)) &&& 0xF)) * 16 +
      ((val >>> (1 * 4)) &&& 0xF)) * 16 + ((val >>> (0 * 4)) &&& 0xF)) = val := by
  have hmask : ∀ x : Nat, x &&& 0xF = x % 16 := fun x =>
    Nat.and_pow_two_sub_one_eq_mod x 4
  simp only [hmask, Nat.shiftRight_eq_div_pow]
  norm_num
  omega

/-- The digit character of nibble `i` is the element of `hex` at the nibble's value. -/
theorem hex_nibble_eq (val i : Nat) :
    some (hex_nibble val i) = hex[(val >>> (i * 4)) &&& 0xF]? := by
  unfold hex_nibble
  rw [List.get_eq_getElem, List.getElem?_eq_getElem]

/-- C21: for every 32-bit value `val` (and whatever the uninitialised array `buf`
held), the string `UART_Panic_Print_Hex` builds and sends is exactly 10 characters:
`0x` followed by 8 characters from `0-9A-F`, most significant nibble first, character
`2 + k` being `hex[(val >> (4 * (7 - k))) & 0xF]`; reading those 8 digits back as a
base-16 number gives `val`, so two 32-bit values with the same string are equal. -/
theorem C21_hex_format (val : Nat) (buf0 : Fin 11 → Char) (hval : val < 2 ^ 32) :
    (UART_Panic_Print_Hex val buf0).map List.length = some 10 ∧
    (UART_Panic_Print_Hex val buf0).map (List.take 2) = some ['0', 'x'] ∧
    (∀ k, k < 8 →
      (UART_Panic_Print_Hex val buf0).bind (fun s => s[2 + k]?) =
        hex[(val >>> (4 * (7 - k))) &&& 0xF]?) ∧
    (∀ k, k < 8 → ∃ c,
      (UART_Panic_Print_Hex val buf0).bind (fun s => s[2 + k]?) = some c ∧
      c ∈ ['0', '1', '2', '3', '4', '5', '6', '7', '8', '9', 'A', 'B', 'C', 'D', 'E', 'F']) ∧
    (UART_Panic_Print_Hex val buf0).map (fun s => read_hex (s.drop 2)) = some val ∧
    (∀ (val2 : Nat) (buf2 : Fin 11 → Char), val2 < 2 ^ 32 →
      UART_Panic_Print_Hex val2 buf2 = UART_Panic_Print_Hex val buf0 → val2 = val) := by
  have hread : ∀ (v : Nat) (b : Fin 11 → Char), v < 2 ^ 32 →
      (UART_Panic_Print_Hex v b).map (fun s => read_hex (s.drop 2)) = some v := by
    intro v b hv
    rw [UART_Panic_Print_Hex_eq, Option.map_some']
    simp only [List.drop_succ_cons, List.drop_zero, read_hex, List.foldl,
      hex_digit_value_nibble]
    rw [nibbles_read_back v hv]
  refine ⟨?_, ?_, ?_, ?_, hread val buf0 hval, ?_⟩
  · rw [UART_Panic_Print_Hex_eq]
    rfl
  · rw [UART_Panic_Print_Hex_eq]
    rfl
  · intro k hk
    rw [UART_Panic_Print_Hex_eq, Option.some_bind]
    interval_cases k
    · exact hex_nibble_eq val 7
    · exact hex_nibble_eq val 6
    · exact hex_nibble_eq val 5
    · exact hex_nibble_eq val 4
    · exact hex_nibble_eq val 3
    · exact hex_nibble_eq val 2
    · exact hex_nibble_eq val 1
    · exact hex_nibble_eq val 0
  · intro k hk
    rw [UART_Panic_Print_Hex_eq, Option.some_bind]
    interval_cases k
    · exact ⟨_, rfl, hex_nibble_mem val 7⟩
    · exact ⟨_, rfl, hex_nibble_mem val 6⟩
    · exact ⟨_, rfl, hex_nibble_mem val 5⟩
    · exact ⟨_, rfl, hex_nibble_mem val 4⟩
    · exact ⟨_, rfl, hex_nibble_mem val 3⟩
    · exact ⟨_, rfl, hex_nibble_mem val 2⟩
    · exact ⟨_, rfl, hex_nibble_mem val 1⟩
    · exact ⟨_, rfl, hex_nibble_mem val 0⟩
  · intro val2 buf2 hval2 heq
    have h2 := hread val2 buf2 hval2
    rw [heq, hread val buf0 hval] at h2
    exact (Option.some.inj h2).symm

/-- Witness for C21: the value `0x1234ABCD` is sent as `0x1234ABCD` and reads back. -/
theorem C21_hex_format_witness :
    UART_Panic_Print_Hex 0x1234ABCD (fun _ => 'Z') =
      some ['0', 'x', '1', '2', '3', '4', 'A', 'B', 'C', 'D'] ∧
    (UART_Panic_Print_Hex 0x1234ABCD (fun _ => 'Z')).map (fun s => read_hex (s.drop 2)) =
      some 0x1234ABCD :=
  ⟨by decide, (C21_hex_format 0x1234ABCD (fun _ => 'Z') (by decide)).2.2.2.2.1⟩

end Stm32
